import Mathlib

/-!
Shallow embedding of the year-by-year retirement projection engine found in
src/app.py.  Money amounts are rationals standing for the source's floats;
all arithmetic is exact.  The definitions follow the source code block by
block; the theorems settle the frozen claims about the engine.
-/

namespace RetireCalc

/-- Monthly mortgage payment via the standard amortization formula,
from calculate_monthly_payment (src/app.py lines 23-39). -/
def calculate_monthly_payment (principal annual_rate : ℚ) (years : ℤ) : ℚ :=
  if principal ≤ 0 ∨ years ≤ 0 then 0
  else
    let monthly_rate := annual_rate / 12
    let num_months : ℕ := years.toNat * 12
    if monthly_rate = 0 then principal / (num_months : ℚ)
    else principal * (monthly_rate * (1 + monthly_rate) ^ num_months) /
      ((1 + monthly_rate) ^ num_months - 1)

/-- Monthly amortization loop: iterates the source's
"for month in range(min(12, months_remaining))" body, accumulating total
interest and total principal and updating the balance. -/
def amortMonths : ℕ → ℚ → ℚ → ℚ → ℚ → ℚ → ℚ × ℚ × ℚ
  | 0, _, _, balance, ti, tp => (ti, tp, balance)
  | n + 1, payment, rate, balance, ti, tp =>
    if balance ≤ 0 then (ti, tp, balance)
    else
      let interest_payment := balance * rate
      let principal_payment0 := payment - interest_payment
      let principal_payment :=
        if principal_payment0 > balance then balance else principal_payment0
      amortMonths n payment rate (balance - principal_payment)
        (ti + interest_payment) (tp + principal_payment)

/-- Annual mortgage breakdown (total_interest, total_principal, new_balance),
from calculate_annual_mortgage_amortization (src/app.py lines 42-73). -/
def calculate_annual_mortgage_amortization
    (principal monthly_payment monthly_rate : ℚ) (months_remaining : ℤ) : ℚ × ℚ × ℚ :=
  if principal ≤ 0 ∨ months_remaining ≤ 0 then (0, 0, 0)
  else
    let r := amortMonths (min 12 months_remaining).toNat monthly_payment monthly_rate principal 0 0
    (r.1, r.2.1, max 0 r.2.2)

/-- The scenario parameters assembled by the sidebar widgets of src/app.py and
consumed unchanged by the projection loop. -/
structure Config where
  start_age : ℕ
  end_age : ℕ
  home_value_now : ℚ
  home_growth : ℚ
  tax_deductions : ℚ
  sell_home_years : ℕ
  sale_cost_pct : ℚ
  mortgage_balance : ℚ
  mortgage_term : ℕ
  mortgage_rate : ℚ
  home_property_tax : ℚ
  home_insurance : ℚ
  home_hoa_monthly : ℚ
  home2_value_now : ℚ
  home2_growth : ℚ
  home2_tax_deductions : ℚ
  home2_sell_home_years : ℕ
  home2_sale_cost_pct : ℚ
  home2_mortgage_balance : ℚ
  home2_mortgage_term : ℕ
  home2_mortgage_rate : ℚ
  home2_property_tax : ℚ
  home2_insurance : ℚ
  home2_hoa_monthly : ℚ
  purchase_price : ℚ
  percent_down : ℚ
  purchase_term : ℕ
  purchase_rate : ℚ
  purchase_growth : ℚ
  purchase_property_tax : ℚ
  purchase_insurance : ℚ
  purchase_hoa_monthly : ℚ
  ssn_income : ℚ
  pension_income : ℚ
  employment_income : ℚ
  ssn_start_age : ℕ
  employment_end_age : ℕ
  cash_start : ℚ
  ira_start : ℚ
  self_years : ℕ
  self_cost : ℚ
  ind_cost : ℚ
  assist_years : ℕ
  assist_cost : ℚ
  memory_years : ℕ
  memory_cost : ℚ
  avg_tax_rate : ℚ
  cap_gains_rate : ℚ
  living_infl : ℚ
  care_infl : ℚ
  stock_growth : ℚ
  cash_growth : ℚ
  debt_interest_rate : ℚ
deriving DecidableEq

/-- down_payment = purchase_price * percent_down (src/app.py line 688). -/
def Config.down_payment (c : Config) : ℚ := c.purchase_price * c.percent_down

/-- loan_amount = purchase_price - down_payment (src/app.py line 689). -/
def Config.loan_amount (c : Config) : ℚ := c.purchase_price - c.down_payment

/-- Fixed monthly payment for the primary-home mortgage (src/app.py lines 856-861). -/
def Config.monthly_mortgage_payment (c : Config) : ℚ :=
  if c.mortgage_balance > 0 ∧ c.mortgage_term > 0 then
    calculate_monthly_payment c.mortgage_balance c.mortgage_rate (c.mortgage_term : ℤ)
  else 0

/-- Fixed monthly rate for the primary-home mortgage (src/app.py lines 856-861). -/
def Config.monthly_mortgage_rate (c : Config) : ℚ :=
  if c.mortgage_balance > 0 ∧ c.mortgage_term > 0 then c.mortgage_rate / 12 else 0

/-- Fixed monthly payment for the second-home mortgage (src/app.py lines 869-874). -/
def Config.home2_monthly_mortgage_payment (c : Config) : ℚ :=
  if c.home2_mortgage_balance > 0 ∧ c.home2_mortgage_term > 0 then
    calculate_monthly_payment c.home2_mortgage_balance c.home2_mortgage_rate (c.home2_mortgage_term : ℤ)
  else 0

/-- Fixed monthly rate for the second-home mortgage (src/app.py lines 869-874). -/
def Config.home2_monthly_mortgage_rate (c : Config) : ℚ :=
  if c.home2_mortgage_balance > 0 ∧ c.home2_mortgage_term > 0 then c.home2_mortgage_rate / 12 else 0

/-- Fixed monthly payment for the purchased-home mortgage (src/app.py lines 882-887). -/
def Config.purchase_monthly_mortgage_payment (c : Config) : ℚ :=
  if c.loan_amount > 0 ∧ c.purchase_term > 0 then
    calculate_monthly_payment c.loan_amount c.purchase_rate (c.purchase_term : ℤ)
  else 0

/-- Fixed monthly rate for the purchased-home mortgage (src/app.py lines 882-887). -/
def Config.purchase_monthly_mortgage_rate (c : Config) : ℚ :=
  if c.loan_amount > 0 ∧ c.purchase_term > 0 then c.purchase_rate / 12 else 0

/-- The mutable simulation state carried from one year to the next. -/
structure St where
  money_market : ℚ
  money_market_cost_basis : ℚ
  money_market_tax_deferred : ℚ
  money_market_prev_value : ℚ
  brokerage : ℚ
  brokerage_cost_basis : ℚ
  brokerage_tax_deferred : ℚ
  brokerage_prev_value : ℚ
  ira : ℚ
  home_value : ℚ
  mortgage_balance_current : ℚ
  mortgage_remaining_months : ℤ
  home2_value : ℚ
  home2_mortgage_balance_current : ℚ
  home2_mortgage_remaining_months : ℤ
  purchase_home_value : ℚ
  purchase_mortgage_balance_current : ℚ
  purchase_mortgage_remaining_months : ℤ
  home_property_tax_current : ℚ
  home_insurance_current : ℚ
  home2_property_tax_current : ℚ
  home2_insurance_current : ℚ
  purchase_property_tax_current : ℚ
  purchase_insurance_current : ℚ
  debt_balance : ℚ
deriving DecidableEq

/-- Initial state (src/app.py lines 839-898). -/
def initSt (c : Config) : St where
  money_market := c.cash_start
  money_market_cost_basis := c.cash_start
  money_market_tax_deferred := 0
  money_market_prev_value := c.cash_start
  brokerage := 0
  brokerage_cost_basis := 0
  brokerage_tax_deferred := 0
  brokerage_prev_value := 0
  ira := c.ira_start
  home_value := c.home_value_now
  mortgage_balance_current := c.mortgage_balance
  mortgage_remaining_months := if c.mortgage_term > 0 then (c.mortgage_term : ℤ) * 12 else 0
  home2_value := c.home2_value_now
  home2_mortgage_balance_current := c.home2_mortgage_balance
  home2_mortgage_remaining_months := if c.home2_mortgage_term > 0 then (c.home2_mortgage_term : ℤ) * 12 else 0
  purchase_home_value := c.purchase_price
  purchase_mortgage_balance_current := c.loan_amount
  purchase_mortgage_remaining_months := if c.purchase_term > 0 then (c.purchase_term : ℤ) * 12 else 0
  home_property_tax_current := c.home_property_tax
  home_insurance_current := c.home_insurance
  home2_property_tax_current := c.home2_property_tax
  home2_insurance_current := c.home2_insurance
  purchase_property_tax_current := c.purchase_property_tax
  purchase_insurance_current := c.purchase_insurance
  debt_balance := 0

/-- Result of one year of mortgage service for one home. -/
structure MortgageYear where
  payment : ℚ
  interest : ℚ
  tax_shield : ℚ
  new_balance : ℚ
  new_months : ℤ
deriving DecidableEq

/-- One year of mortgage service (the body of the
"if mortgage_remaining_months > 0" block, src/app.py lines 1034-1053). -/
def serviceMortgage (bal : ℚ) (months : ℤ) (payment rate avg_tax : ℚ) : MortgageYear :=
  if months > 0 then
    let r := calculate_annual_mortgage_amortization bal payment rate months
    let annual_interest := r.1
    let annual_principal := r.2.1
    let new_balance := r.2.2
    let months1 := max 0 (months - 12)
    let shield := annual_interest * (1 - avg_tax)
    if months1 ≤ 0 ∨ new_balance ≤ 0 then
      ⟨annual_interest + annual_principal, annual_interest, shield, 0, 0⟩
    else
      ⟨annual_interest + annual_principal, annual_interest, shield, new_balance, months1⟩
  else ⟨0, 0, 0, bal, months⟩

/-- The no-op mortgage year used when a home's service guard is false. -/
def noServiceMortgage (bal : ℚ) (months : ℤ) : MortgageYear := ⟨0, 0, 0, bal, months⟩

/-- The four sequential life-phase expense tiers. -/
inductive ExpenseType
  | selfSufficient
  | independentLiving
  | assistedLiving
  | memoryCare
deriving DecidableEq, Inhabited

/-- Active tier's (base_cost, inflation_rate), selected by comparing age
against the configured boundaries (src/app.py lines 1000-1017). -/
def tierBaseCost (c : Config) (age : ℕ) : ℚ × ℚ :=
  if age < c.start_age + c.self_years then (c.self_cost, c.living_infl)
  else if age < c.start_age + c.assist_years then (c.ind_cost, c.care_infl)
  else if age < c.start_age + c.memory_years then (c.assist_cost, c.care_infl)
  else (c.memory_cost, c.care_infl)

/-- Categorical tier label for the year (src/app.py lines 1124-1131). -/
def expenseTypeOf (c : Config) (age : ℕ) : ExpenseType :=
  if age < c.start_age + c.self_years then .selfSufficient
  else if age < c.start_age + c.assist_years then .independentLiving
  else if age < c.start_age + c.memory_years then .assistedLiving
  else .memoryCare

/-- Result of growing a capital-gains-tracked bucket for one year. -/
structure BucketGrow where
  bal : ℚ
  cost_basis : ℚ
  tax_deferred : ℚ
  prev_value : ℚ
  growth : ℚ
deriving DecidableEq

/-- One year of growth plus tax-deferred tracking for the money-market or
brokerage bucket (src/app.py lines 1134-1189), including the epsilon
zeroing before and after growth. -/
def growBucket (bal cost_basis tax_deferred rate : ℚ) : BucketGrow :=
  if bal < (1/100 : ℚ) then ⟨0, 0, 0, 0, 0⟩
  else
    let prev' := bal
    let bal' := bal * (1 + rate)
    let g := bal' - bal
    let td' :=
      if g > 0 then tax_deferred + g
      else if g < 0 ∧ bal' > 0 then
        let lossFrac := if prev' > 0 then |g| / prev' else 0
        max 0 (tax_deferred * (1 - lossFrac))
      else tax_deferred
    if bal' < (1/100 : ℚ) then ⟨0, 0, 0, 0, 0⟩ else ⟨bal', cost_basis, td', prev', g⟩

/-- Liquid (net of sale cost, tax and mortgage payoff) value of a home
(src/app.py lines 1196-1208 and 1228-1240). -/
def liquidValue (value sale_cost_pct deductions cap_gains_rate mortgage_bal : ℚ) : ℚ :=
  let sale_price := value
  let sale_cost := sale_price * sale_cost_pct
  let taxable_gain := max (sale_price - sale_cost - deductions) 0
  let tax := taxable_gain * cap_gains_rate
  let liquid := sale_price - sale_cost - tax
  if mortgage_bal > 0 then max 0 (liquid - mortgage_bal) else liquid

/-- Effect of a (possible) home-sale transaction on the brokerage bucket and
on the home itself. -/
structure SaleEffect where
  brokerage : ℚ
  brokerage_cost_basis : ℚ
  brokerage_tax_deferred : ℚ
  brokerage_prev_value : ℚ
  home_value : ℚ
  liquid_value : ℚ
  mortgage_balance : ℚ
  mortgage_months : ℤ
deriving DecidableEq

/-- Primary-home sale transaction (src/app.py lines 1210-1226): on the sale
year the mortgage is paid off, the net proceeds move to the brokerage, the
brokerage cost basis is OVERWRITTEN with the proceeds and the tax-deferred
component is reset to zero. -/
def primarySale (sale : Bool) (brokerage cb td prev home_value liquid mortgage_bal : ℚ)
    (months : ℤ) : SaleEffect :=
  if sale then
    let mb := if mortgage_bal > 0 then 0 else mortgage_bal
    let mo := if mortgage_bal > 0 then 0 else months
    let brokerage1 := brokerage + liquid
    ⟨brokerage1, liquid, 0, brokerage1, 0, 0, mb, mo⟩
  else ⟨brokerage, cb, td, prev, home_value, liquid, mortgage_bal, months⟩

/-- Second-home sale transaction (src/app.py lines 1242-1259): proceeds are
ADDED to the existing brokerage balance and cost basis and the existing
tax-deferred component is kept. -/
def secondSale (sale : Bool) (brokerage cb td prev home_value liquid mortgage_bal : ℚ)
    (months : ℤ) : SaleEffect :=
  if sale then
    let mb := if mortgage_bal > 0 then 0 else mortgage_bal
    let mo := if mortgage_bal > 0 then 0 else months
    let brokerage1 := brokerage + liquid
    ⟨brokerage1, cb + liquid, td, brokerage1, 0, 0, mb, mo⟩
  else ⟨brokerage, cb, td, prev, home_value, liquid, mortgage_bal, months⟩

/-- Result of one stage of the withdrawal cascade for a capital-gains-taxed
bucket. -/
structure TakeResult where
  bal : ℚ
  cost_basis : ℚ
  tax_deferred : ℚ
  prev_value : ℚ
  withdrawal : ℚ
  withdrawal_tax : ℚ
  deficit : ℚ
deriving DecidableEq

/-- Cascade stage for a bucket taxed at a blended capital-gains rate on
withdrawal: the money-market stage (src/app.py lines 1287-1331) and the
brokerage stage (src/app.py lines 1333-1374), which are identical in form. -/
def takeTaxedBucket (cap_gains_rate deficit bal cost_basis tax_deferred prev : ℚ) : TakeResult :=
  if deficit > 0 ∧ bal > 0 then
    let tax_rate_on_withdrawal := if bal > 0 then tax_deferred / bal * cap_gains_rate else 0
    let gross_needed :=
      if tax_rate_on_withdrawal < 1 then deficit / (1 - tax_rate_on_withdrawal) else deficit
    let take := min bal gross_needed
    if take > 0 then
      let withdrawal_pct := take / bal
      let untaxed_portion := withdrawal_pct * tax_deferred
      let tax_owed := untaxed_portion * cap_gains_rate
      let net_available := take - tax_owed
      let bal1 := max 0 (bal - take)
      if bal1 < (1/100 : ℚ) then ⟨0, 0, 0, 0, take, tax_owed, deficit - net_available⟩
      else
        ⟨bal1, cost_basis * (1 - withdrawal_pct), tax_deferred * (1 - withdrawal_pct), bal1,
          take, tax_owed, deficit - net_available⟩
    else ⟨bal, cost_basis, tax_deferred, prev, 0, 0, deficit⟩
  else ⟨bal, cost_basis, tax_deferred, prev, 0, 0, deficit⟩

/-- Result of the IRA stage of the cascade. -/
structure IraTake where
  bal : ℚ
  withdrawal : ℚ
  withdrawal_tax : ℚ
  deficit : ℚ
deriving DecidableEq

/-- Cascade stage for the fully-ordinary-income-taxed IRA
(src/app.py lines 1376-1408). -/
def takeIraBucket (avg_tax_rate deficit bal : ℚ) : IraTake :=
  if deficit > 0 ∧ bal > 0 then
    let gross_needed := if avg_tax_rate < 1 then deficit / (1 - avg_tax_rate) else deficit
    let take := min bal gross_needed
    if take > 0 then
      let tax_owed := take * avg_tax_rate
      let net_available := take - tax_owed
      let bal1 := max 0 (bal - take)
      let bal2 := if bal1 < (1/100 : ℚ) then 0 else bal1
      ⟨bal2, take, tax_owed, deficit - net_available⟩
    else ⟨bal, 0, 0, deficit⟩
  else ⟨bal, 0, 0, deficit⟩

/-- Result of the debt step of the cascade. -/
structure DebtTake where
  taken : ℚ
  balance : ℚ
  deficit : ℚ
deriving DecidableEq

/-- Last-resort debt step (src/app.py lines 1410-1433): debt is taken only
when all three buckets are depleted AND each home is either still owned with
positive value before its sale year, or already past its sale year with the
brokerage depleted. -/
def takeDebt (i sell_home_years home2_sell_home_years : ℕ)
    (home_value home2_value money_market brokerage ira debt_balance deficit : ℚ) : DebtTake :=
  if deficit > 0 then
    let money_market_depleted := money_market ≤ (1/100 : ℚ)
    let brokerage_depleted := brokerage ≤ (1/100 : ℚ)
    let ira_depleted := ira ≤ (1/100 : ℚ)
    let primary_home_available :=
      (i < sell_home_years ∧ home_value > 0) ∨ (sell_home_years ≤ i ∧ brokerage_depleted)
    let second_home_available :=
      (i < home2_sell_home_years ∧ home2_value > 0) ∨ (home2_sell_home_years ≤ i ∧ brokerage_depleted)
    if money_market_depleted ∧ brokerage_depleted ∧ ira_depleted ∧
        primary_home_available ∧ second_home_available then
      ⟨deficit, debt_balance + deficit, 0⟩
    else ⟨0, debt_balance, deficit⟩
  else ⟨0, debt_balance, deficit⟩

/-- Outcome of the cash-flow resolution: bucket balances and tracking fields
after the surplus contribution or after the withdrawal cascade. -/
structure Resolution where
  money_market : ℚ
  money_market_cost_basis : ℚ
  money_market_tax_deferred : ℚ
  money_market_prev_value : ℚ
  brokerage : ℚ
  brokerage_cost_basis : ℚ
  brokerage_tax_deferred : ℚ
  brokerage_prev_value : ℚ
  ira : ℚ
  mm_withdrawal : ℚ
  mm_withdrawal_tax : ℚ
  brokerage_withdrawal : ℚ
  brokerage_withdrawal_tax : ℚ
  ira_withdrawal : ℚ
  ira_withdrawal_tax : ℚ
  debt_taken : ℚ
  debt_balance : ℚ
  deficit : ℚ
deriving DecidableEq

/-- The full withdrawal cascade for a deficit year: money market, then
brokerage, then IRA, then (conditionally) debt (src/app.py lines 1282-1433). -/
def cascade (c : Config) (i : ℕ) (deficit0 : ℚ)
    (mm mm_cb mm_td mm_prev br br_cb br_td br_prev ira home_value home2_value debt_bal : ℚ) :
    Resolution :=
  let t1 := takeTaxedBucket c.cap_gains_rate deficit0 mm mm_cb mm_td mm_prev
  let t2 := takeTaxedBucket c.cap_gains_rate t1.deficit br br_cb br_td br_prev
  let t3 := takeIraBucket c.avg_tax_rate t2.deficit ira
  let d := takeDebt i c.sell_home_years c.home2_sell_home_years home_value home2_value
    t1.bal t2.bal t3.bal debt_bal t3.deficit
  { money_market := t1.bal
    money_market_cost_basis := t1.cost_basis
    money_market_tax_deferred := t1.tax_deferred
    money_market_prev_value := t1.prev_value
    brokerage := t2.bal
    brokerage_cost_basis := t2.cost_basis
    brokerage_tax_deferred := t2.tax_deferred
    brokerage_prev_value := t2.prev_value
    ira := t3.bal
    mm_withdrawal := t1.withdrawal
    mm_withdrawal_tax := t1.withdrawal_tax
    brokerage_withdrawal := t2.withdrawal
    brokerage_withdrawal_tax := t2.withdrawal_tax
    ira_withdrawal := t3.withdrawal
    ira_withdrawal_tax := t3.withdrawal_tax
    debt_taken := d.taken
    debt_balance := d.balance
    deficit := d.deficit }

/-- Cash-flow resolution (src/app.py lines 1278-1433): a surplus goes to the
money market (and its already-taxed cost basis), a deficit runs the cascade. -/
def resolveCashFlow (c : Config) (i : ℕ) (cash_flow : ℚ)
    (mm mm_cb mm_td mm_prev br br_cb br_td br_prev ira home_value home2_value debt_bal : ℚ) :
    Resolution :=
  if cash_flow ≥ 0 then
    { money_market := mm + cash_flow
      money_market_cost_basis := mm_cb + cash_flow
      money_market_tax_deferred := mm_td
      money_market_prev_value := mm_prev
      brokerage := br
      brokerage_cost_basis := br_cb
      brokerage_tax_deferred := br_td
      brokerage_prev_value := br_prev
      ira := ira
      mm_withdrawal := 0
      mm_withdrawal_tax := 0
      brokerage_withdrawal := 0
      brokerage_withdrawal_tax := 0
      ira_withdrawal := 0
      ira_withdrawal_tax := 0
      debt_taken := 0
      debt_balance := debt_bal
      deficit := 0 }
  else
    cascade c i (-cash_flow) mm mm_cb mm_td mm_prev br br_cb br_td br_prev ira
      home_value home2_value debt_bal

/-- One row of the projection table (the values appended to the per-year
series in src/app.py lines 1499-1569). -/
structure Row where
  age : ℕ
  net_worth : ℚ
  expenses : ℚ
  cash_flow : ℚ
  income : ℚ
  money_market : ℚ
  money_market_cost_basis : ℚ
  money_market_tax_deferred : ℚ
  brokerage : ℚ
  brokerage_cost_basis : ℚ
  brokerage_tax_deferred : ℚ
  ira : ℚ
  ira_liquid : ℚ
  home_value : ℚ
  liquid_home_value : ℚ
  mortgage_balance : ℚ
  home2_value : ℚ
  home2_liquid_value : ℚ
  home2_mortgage_balance : ℚ
  purchase_home_liquid_value : ℚ
  purchase_mortgage_balance : ℚ
  debt_balance : ℚ
  debt_interest : ℚ
  mm_withdrawal : ℚ
  mm_withdrawal_tax : ℚ
  brokerage_withdrawal : ℚ
  brokerage_withdrawal_tax : ℚ
  ira_withdrawal : ℚ
  ira_withdrawal_tax : ℚ
  debt_taken : ℚ
  deficit_remaining : ℚ
  home_sale_this_year : Bool
  home2_sale_this_year : Bool
  home_sale_proceeds : ℚ
  home2_sale_proceeds : ℚ
  expense_type : ExpenseType
  expense_base_cost : ℚ
  expense_inflation_rate : ℚ
  expense_inflation_multiplier : ℚ
  expense_inflated_base_cost : ℚ
deriving DecidableEq, Inhabited

/-- Intermediate values of a year: debt interest, property appreciation,
carrying-cost growth, expense-tier selection and mortgage service
(src/app.py lines 972-1131). -/
structure PreOut where
  debt_interest_annual : ℚ
  debt_balance1 : ℚ
  home_value1 : ℚ
  home2_value1 : ℚ
  purchase_home_value1 : ℚ
  home_property_tax1 : ℚ
  home_insurance1 : ℚ
  home2_property_tax1 : ℚ
  home2_insurance1 : ℚ
  purchase_property_tax1 : ℚ
  purchase_insurance1 : ℚ
  m1 : MortgageYear
  m2 : MortgageYear
  m3 : MortgageYear
  expenses : ℚ
  base_cost : ℚ
  inflation_rate : ℚ
  inflation_multiplier : ℚ
  inflated_base_cost : ℚ
deriving DecidableEq

/-- First phase of a year (src/app.py lines 972-1121): debt interest accrual,
home appreciation, property-tax and insurance growth, expense-tier selection
and inflation, mortgage service for the three homes, and the total expenses. -/
def stepPre (c : Config) (i age : ℕ) (s : St) : PreOut :=
  let debt_interest_annual := if s.debt_balance > 0 then s.debt_balance * c.debt_interest_rate else 0
  let debt_balance1 := s.debt_balance + debt_interest_annual
  let home_value1 := s.home_value * (1 + c.home_growth)
  let home2_value1 := s.home2_value * (1 + c.home2_growth)
  let purchase_home_value1 := s.purchase_home_value * (1 + c.purchase_growth)
  let home_property_tax1 := s.home_property_tax_current * (102/100)
  let home_insurance1 := s.home_insurance_current * (103/100)
  let home2_property_tax1 := s.home2_property_tax_current * (102/100)
  let home2_insurance1 := s.home2_insurance_current * (103/100)
  let purchase_property_tax1 := s.purchase_property_tax_current * (102/100)
  let purchase_insurance1 := s.purchase_insurance_current * (103/100)
  let home_hoa_annual := c.home_hoa_monthly * 12
  let home2_hoa_annual := c.home2_hoa_monthly * 12
  let purchase_hoa_annual := c.purchase_hoa_monthly * 12
  let bc := tierBaseCost c age
  let inflation_multiplier := (1 + bc.2) ^ i
  let inflated_base_cost := bc.1 * inflation_multiplier
  let expenses0 := inflated_base_cost + debt_interest_annual
  let m1 :=
    if s.mortgage_balance_current > 0 ∧ i < c.sell_home_years then
      serviceMortgage s.mortgage_balance_current s.mortgage_remaining_months
        c.monthly_mortgage_payment c.monthly_mortgage_rate c.avg_tax_rate
    else noServiceMortgage s.mortgage_balance_current s.mortgage_remaining_months
  let expenses1 := expenses0 + m1.payment - m1.tax_shield
  let m2 :=
    if s.home2_mortgage_balance_current > 0 ∧ i < c.home2_sell_home_years then
      serviceMortgage s.home2_mortgage_balance_current s.home2_mortgage_remaining_months
        c.home2_monthly_mortgage_payment c.home2_monthly_mortgage_rate c.avg_tax_rate
    else noServiceMortgage s.home2_mortgage_balance_current s.home2_mortgage_remaining_months
  let expenses2 := expenses1 + m2.payment - m2.tax_shield
  let m3 :=
    if s.purchase_mortgage_balance_current > 0 then
      serviceMortgage s.purchase_mortgage_balance_current s.purchase_mortgage_remaining_months
        c.purchase_monthly_mortgage_payment c.purchase_monthly_mortgage_rate c.avg_tax_rate
    else noServiceMortgage s.purchase_mortgage_balance_current s.purchase_mortgage_remaining_months
  let expenses3 := expenses2 + m3.payment - m3.tax_shield
  let expenses4 :=
    if i < c.sell_home_years then expenses3 + home_property_tax1 + home_insurance1 + home_hoa_annual
    else expenses3
  let expenses5 :=
    if i < c.home2_sell_home_years then
      expenses4 + home2_property_tax1 + home2_insurance1 + home2_hoa_annual
    else expenses4
  let expenses6 := expenses5 + purchase_property_tax1 + purchase_insurance1 + purchase_hoa_annual
  { debt_interest_annual := debt_interest_annual
    debt_balance1 := debt_balance1
    home_value1 := home_value1
    home2_value1 := home2_value1
    purchase_home_value1 := purchase_home_value1
    home_property_tax1 := home_property_tax1
    home_insurance1 := home_insurance1
    home2_property_tax1 := home2_property_tax1
    home2_insurance1 := home2_insurance1
    purchase_property_tax1 := purchase_property_tax1
    purchase_insurance1 := purchase_insurance1
    m1 := m1
    m2 := m2
    m3 := m3
    expenses := expenses6
    base_cost := bc.1
    inflation_rate := bc.2
    inflation_multiplier := inflation_multiplier
    inflated_base_cost := inflated_base_cost }

/-- Result of the investment-growth phase. -/
structure GrowOut where
  mm : BucketGrow
  br : BucketGrow
  ira1 : ℚ
deriving DecidableEq

/-- Investment-growth phase (src/app.py lines 1133-1194). -/
def stepGrow (c : Config) (s : St) : GrowOut where
  mm := growBucket s.money_market s.money_market_cost_basis s.money_market_tax_deferred c.cash_growth
  br := growBucket s.brokerage s.brokerage_cost_basis s.brokerage_tax_deferred c.stock_growth
  ira1 := s.ira * (1 + c.stock_growth)

/-- Result of the liquid-value computations and the two sale transactions. -/
structure SalesOut where
  liquid_home_value0 : ℚ
  home2_liquid_value0 : ℚ
  home_sale_this_year : Bool
  home2_sale_this_year : Bool
  ps : SaleEffect
  ss : SaleEffect
deriving DecidableEq

/-- Liquid-value computation and the scheduled sale transactions for the two
sellable homes (src/app.py lines 1196-1259). -/
def stepSales (c : Config) (i : ℕ) (p : PreOut) (g : GrowOut) : SalesOut :=
  let liquid_home_value0 :=
    liquidValue p.home_value1 c.sale_cost_pct c.tax_deductions c.cap_gains_rate p.m1.new_balance
  let home_sale_this_year : Bool := decide (i = c.sell_home_years)
  let ps := primarySale home_sale_this_year g.br.bal g.br.cost_basis g.br.tax_deferred
    g.br.prev_value p.home_value1 liquid_home_value0 p.m1.new_balance p.m1.new_months
  let home2_liquid_value0 :=
    liquidValue p.home2_value1 c.home2_sale_cost_pct c.home2_tax_deductions c.cap_gains_rate
      p.m2.new_balance
  let home2_sale_this_year : Bool := decide (i = c.home2_sell_home_years)
  let ss := secondSale home2_sale_this_year ps.brokerage ps.brokerage_cost_basis
    ps.brokerage_tax_deferred ps.brokerage_prev_value p.home2_value1 home2_liquid_value0
    p.m2.new_balance p.m2.new_months
  { liquid_home_value0 := liquid_home_value0
    home2_liquid_value0 := home2_liquid_value0
    home_sale_this_year := home_sale_this_year
    home2_sale_this_year := home2_sale_this_year
    ps := ps
    ss := ss }

/-- Result of the income and cash-flow resolution phase. -/
structure ResolveOut where
  income_annual : ℚ
  cash_flow : ℚ
  res : Resolution
deriving DecidableEq

/-- Income assembly and cash-flow resolution (src/app.py lines 1261-1433). -/
def stepResolve (c : Config) (i age : ℕ) (p : PreOut) (g : GrowOut) (sl : SalesOut) : ResolveOut :=
  let ssn_this_year := if c.ssn_start_age ≤ age then c.ssn_income else 0
  let employment_this_year := if age ≤ c.employment_end_age then c.employment_income else 0
  let income_annual := ssn_this_year + (c.pension_income + employment_this_year) * (1 - c.avg_tax_rate)
  let cash_flow := income_annual - p.expenses
  { income_annual := income_annual
    cash_flow := cash_flow
    res := resolveCashFlow c i cash_flow g.mm.bal g.mm.cost_basis g.mm.tax_deferred g.mm.prev_value
      sl.ss.brokerage sl.ss.brokerage_cost_basis sl.ss.brokerage_tax_deferred
      sl.ss.brokerage_prev_value g.ira1 sl.ps.home_value sl.ss.home_value p.debt_balance1 }

/-- Final phase: build the next-year state and the projection row
(src/app.py lines 1435-1569). -/
def stepAssemble (c : Config) (age : ℕ) (p : PreOut) (sl : SalesOut) (r : ResolveOut) : St × Row :=
  let res := r.res
  let ira_liquid := res.ira * (1 - c.avg_tax_rate)
  let purchase_home_liquid_value := p.purchase_home_value1 - p.m3.new_balance
  let total_assets := res.money_market + res.brokerage + ira_liquid + sl.ps.liquid_value +
    sl.ss.liquid_value + purchase_home_liquid_value - res.debt_balance
  ({ money_market := res.money_market
     money_market_cost_basis := res.money_market_cost_basis
     money_market_tax_deferred := res.money_market_tax_deferred
     money_market_prev_value := res.money_market_prev_value
     brokerage := res.brokerage
     brokerage_cost_basis := res.brokerage_cost_basis
     brokerage_tax_deferred := res.brokerage_tax_deferred
     brokerage_prev_value := res.brokerage_prev_value
     ira := res.ira
     home_value := sl.ps.home_value
     mortgage_balance_current := sl.ps.mortgage_balance
     mortgage_remaining_months := sl.ps.mortgage_months
     home2_value := sl.ss.home_value
     home2_mortgage_balance_current := sl.ss.mortgage_balance
     home2_mortgage_remaining_months := sl.ss.mortgage_months
     purchase_home_value := p.purchase_home_value1
     purchase_mortgage_balance_current := p.m3.new_balance
     purchase_mortgage_remaining_months := p.m3.new_months
     home_property_tax_current := p.home_property_tax1
     home_insurance_current := p.home_insurance1
     home2_property_tax_current := p.home2_property_tax1
     home2_insurance_current := p.home2_insurance1
     purchase_property_tax_current := p.purchase_property_tax1
     purchase_insurance_current := p.purchase_insurance1
     debt_balance := res.debt_balance },
   { age := age
     net_worth := total_assets
     expenses := p.expenses
     cash_flow := r.cash_flow
     income := r.income_annual
     money_market := res.money_market
     money_market_cost_basis := res.money_market_cost_basis
     money_market_tax_deferred := res.money_market_tax_deferred
     brokerage := res.brokerage
     brokerage_cost_basis := res.brokerage_cost_basis
     brokerage_tax_deferred := res.brokerage_tax_deferred
     ira := res.ira
     ira_liquid := ira_liquid
     home_value := sl.ps.home_value
     liquid_home_value := sl.ps.liquid_value
     mortgage_balance := sl.ps.mortgage_balance
     home2_value := sl.ss.home_value
     home2_liquid_value := sl.ss.liquid_value
     home2_mortgage_balance := sl.ss.mortgage_balance
     purchase_home_liquid_value := purchase_home_liquid_value
     purchase_mortgage_balance := p.m3.new_balance
     debt_balance := res.debt_balance
     debt_interest := p.debt_interest_annual
     mm_withdrawal := res.mm_withdrawal
     mm_withdrawal_tax := res.mm_withdrawal_tax
     brokerage_withdrawal := res.brokerage_withdrawal
     brokerage_withdrawal_tax := res.brokerage_withdrawal_tax
     ira_withdrawal := res.ira_withdrawal
     ira_withdrawal_tax := res.ira_withdrawal_tax
     debt_taken := res.debt_taken
     deficit_remaining := res.deficit
     home_sale_this_year := sl.home_sale_this_year
     home2_sale_this_year := sl.home2_sale_this_year
     home_sale_proceeds := if sl.home_sale_this_year then sl.liquid_home_value0 else 0
     home2_sale_proceeds := if sl.home2_sale_this_year then sl.home2_liquid_value0 else 0
     expense_type := expenseTypeOf c age
     expense_base_cost := p.base_cost
     expense_inflation_rate := p.inflation_rate
     expense_inflation_multiplier := p.inflation_multiplier
     expense_inflated_base_cost := p.inflated_base_cost })

/-- One full year of the projection loop (src/app.py lines 971-1569),
given the year index i (years since simulation start) and the age. -/
def step (c : Config) (i : ℕ) (age : ℕ) (s : St) : St × Row :=
  let p := stepPre c i age s
  let g := stepGrow c s
  let sl := stepSales c i p g
  let r := stepResolve c i age p g sl
  stepAssemble c age p sl r

/-- Run n consecutive years starting at year index i from state s,
collecting the produced rows. -/
def stepsFrom (c : Config) : St → ℕ → ℕ → List Row
  | _, _, 0 => []
  | s, i, n + 1 =>
    let sr := step c i (c.start_age + i) s
    sr.2 :: stepsFrom c sr.1 (i + 1) n

/-- Number of simulated years: one row per age in [start_age, end_age]. -/
def numYears (c : Config) : ℕ := c.end_age + 1 - c.start_age

/-- The whole projection: the engine's output table. -/
def run (c : Config) : List Row := stepsFrom c (initSt c) 0 (numYears c)

/-- State reached after consuming j years starting at year index i. -/
def stateAfter (c : Config) : ℕ → St → ℕ → St
  | 0, s, _ => s
  | n + 1, s, i => stateAfter c n (step c i (c.start_age + i) s).1 (i + 1)


/-! ### Generic facts about the projection loop -/

lemma stepsFrom_succ (c : Config) (s : St) (i n : ℕ) :
    stepsFrom c s i (n + 1) =
      (step c i (c.start_age + i) s).2 ::
        stepsFrom c (step c i (c.start_age + i) s).1 (i + 1) n := rfl

lemma stepsFrom_length (c : Config) : ∀ (n i : ℕ) (s : St), (stepsFrom c s i n).length = n
  | 0, _, _ => rfl
  | n + 1, i, s => by
    rw [stepsFrom_succ]
    simp [stepsFrom_length c n (i + 1)]

/-- There is one projection row per age in the simulated range. -/
lemma run_length (c : Config) : (run c).length = numYears c :=
  stepsFrom_length c (numYears c) 0 (initSt c)

lemma stateAfter_zero (c : Config) (s : St) (i : ℕ) : stateAfter c 0 s i = s := rfl

lemma stateAfter_shift (c : Config) (s : St) (i j : ℕ) :
    stateAfter c (j + 1) s i =
      stateAfter c j (step c i (c.start_age + i) s).1 (i + 1) := rfl

lemma stateAfter_succ (c : Config) (j : ℕ) : ∀ (s : St) (i : ℕ),
    stateAfter c (j + 1) s i = (step c (i + j) (c.start_age + (i + j)) (stateAfter c j s i)).1 := by
  induction j with
  | zero =>
    intro s i
    simp only [Nat.add_zero, stateAfter_shift, stateAfter_zero]
  | succ j ih =>
    intro s i
    have h : i + 1 + j = i + (j + 1) := by omega
    rw [stateAfter_shift, ih, h, ← stateAfter_shift]

lemma stepsFrom_getD (c : Config) (d : Row) (j : ℕ) : ∀ (n : ℕ) (s : St) (i : ℕ), j < n →
    (stepsFrom c s i n).getD j d =
      (step c (i + j) (c.start_age + (i + j)) (stateAfter c j s i)).2 := by
  induction j with
  | zero =>
    intro n s i hn
    obtain ⟨m, rfl⟩ : ∃ m, n = m + 1 := ⟨n - 1, by omega⟩
    rw [stepsFrom_succ, List.getD_cons_zero, Nat.add_zero, stateAfter_zero]
  | succ j ih =>
    intro n s i hn
    obtain ⟨m, rfl⟩ : ∃ m, n = m + 1 := ⟨n - 1, by omega⟩
    have h2 : i + 1 + j = i + (j + 1) := by omega
    rw [stepsFrom_succ, List.getD_cons_succ,
      ih m (step c i (c.start_age + i) s).1 (i + 1) (by omega), h2, ← stateAfter_shift]

/-- Row j of the projection is the row produced by the step of year j from the
state reached after j years. -/
lemma run_getD (c : Config) (j : ℕ) (hj : j < (run c).length) :
    (run c).getD j default =
      (step c j (c.start_age + j) (stateAfter c j (initSt c) 0)).2 := by
  rw [run_length] at hj
  simpa using stepsFrom_getD c default j (numYears c) (initSt c) 0 hj

lemma run_getD_mem (c : Config) (j : ℕ) (hj : j < (run c).length) :
    (run c).getD j default ∈ run c := by
  rw [List.getD_eq_getElem (run c) default hj]
  exact List.getElem_mem hj

/-- The step is the composition of its five phases. -/
lemma step_eq (c : Config) (i age : ℕ) (s : St) :
    step c i age s =
      stepAssemble c age (stepPre c i age s)
        (stepSales c i (stepPre c i age s) (stepGrow c s))
        (stepResolve c i age (stepPre c i age s) (stepGrow c s)
          (stepSales c i (stepPre c i age s) (stepGrow c s))) := rfl

/-! ### Validity of a configuration

The bounds that the sidebar input widgets of src/app.py enforce on the
parameters before the projection loop runs (slider ranges are fractions of
the percentage ranges; balances and costs are nonnegative). -/

structure Config.Valid (c : Config) : Prop where
  cash_start_nonneg : 0 ≤ c.cash_start
  ira_start_nonneg : 0 ≤ c.ira_start
  home_value_nonneg : 0 ≤ c.home_value_now
  home2_value_nonneg : 0 ≤ c.home2_value_now
  purchase_price_nonneg : 0 ≤ c.purchase_price
  tax_deductions_nonneg : 0 ≤ c.tax_deductions
  home2_tax_deductions_nonneg : 0 ≤ c.home2_tax_deductions
  mortgage_balance_nonneg : 0 ≤ c.mortgage_balance
  home2_mortgage_balance_nonneg : 0 ≤ c.home2_mortgage_balance
  cash_growth_nonneg : 0 ≤ c.cash_growth
  stock_growth_nonneg : 0 ≤ c.stock_growth
  home_growth_nonneg : 0 ≤ c.home_growth
  home2_growth_nonneg : 0 ≤ c.home2_growth
  purchase_growth_nonneg : 0 ≤ c.purchase_growth
  sale_cost_pct_nonneg : 0 ≤ c.sale_cost_pct
  sale_cost_pct_le_one : c.sale_cost_pct ≤ 1
  home2_sale_cost_pct_nonneg : 0 ≤ c.home2_sale_cost_pct
  home2_sale_cost_pct_le_one : c.home2_sale_cost_pct ≤ 1
  cap_gains_rate_nonneg : 0 ≤ c.cap_gains_rate
  cap_gains_rate_le_one : c.cap_gains_rate ≤ 1
  avg_tax_rate_nonneg : 0 ≤ c.avg_tax_rate
  avg_tax_rate_le_one : c.avg_tax_rate ≤ 1
  percent_down_nonneg : 0 ≤ c.percent_down
  percent_down_le_one : c.percent_down ≤ 1
  mortgage_rate_nonneg : 0 ≤ c.mortgage_rate
  home2_mortgage_rate_nonneg : 0 ≤ c.home2_mortgage_rate
  purchase_rate_nonneg : 0 ≤ c.purchase_rate
  age_order : c.start_age ≤ c.end_age
  tier_order1 : c.self_years ≤ c.assist_years
  tier_order2 : c.assist_years ≤ c.memory_years

/-! ### Two concrete scenarios

exampleCfg1 is the spec's worked example: one fully-ordinary-taxed bucket
(the IRA) with balance 100000 and growth 5 percent, one income stream of
20000 per year taxed at 30 percent, a flat 30000 per year expense tier with
zero inflation, no properties, no debt, ages 70 to 72.

exampleCfg2 is an insolvency scenario: no assets and no income at all, a flat
30000 per year expense tier, a configured debt rate of 8 percent, one year. -/

def exampleCfg1 : Config where
  start_age := 70
  end_age := 72
  home_value_now := 0
  home_growth := 0
  tax_deductions := 0
  sell_home_years := 5
  sale_cost_pct := 0
  mortgage_balance := 0
  mortgage_term := 0
  mortgage_rate := 0
  home_property_tax := 0
  home_insurance := 0
  home_hoa_monthly := 0
  home2_value_now := 0
  home2_growth := 0
  home2_tax_deductions := 0
  home2_sell_home_years := 5
  home2_sale_cost_pct := 0
  home2_mortgage_balance := 0
  home2_mortgage_term := 0
  home2_mortgage_rate := 0
  home2_property_tax := 0
  home2_insurance := 0
  home2_hoa_monthly := 0
  purchase_price := 0
  percent_down := 0
  purchase_term := 1
  purchase_rate := 0
  purchase_growth := 0
  purchase_property_tax := 0
  purchase_insurance := 0
  purchase_hoa_monthly := 0
  ssn_income := 0
  pension_income := 20000
  employment_income := 0
  ssn_start_age := 70
  employment_end_age := 70
  cash_start := 0
  ira_start := 100000
  self_years := 10
  self_cost := 30000
  ind_cost := 0
  assist_years := 10
  assist_cost := 0
  memory_years := 10
  memory_cost := 0
  avg_tax_rate := 3/10
  cap_gains_rate := 1/4
  living_infl := 0
  care_infl := 0
  stock_growth := 1/20
  cash_growth := 0
  debt_interest_rate := 0

def exampleCfg2 : Config where
  start_age := 70
  end_age := 70
  home_value_now := 0
  home_growth := 0
  tax_deductions := 0
  sell_home_years := 5
  sale_cost_pct := 0
  mortgage_balance := 0
  mortgage_term := 0
  mortgage_rate := 0
  home_property_tax := 0
  home_insurance := 0
  home_hoa_monthly := 0
  home2_value_now := 0
  home2_growth := 0
  home2_tax_deductions := 0
  home2_sell_home_years := 0
  home2_sale_cost_pct := 0
  home2_mortgage_balance := 0
  home2_mortgage_term := 0
  home2_mortgage_rate := 0
  home2_property_tax := 0
  home2_insurance := 0
  home2_hoa_monthly := 0
  purchase_price := 0
  percent_down := 0
  purchase_term := 1
  purchase_rate := 0
  purchase_growth := 0
  purchase_property_tax := 0
  purchase_insurance := 0
  purchase_hoa_monthly := 0
  ssn_income := 0
  pension_income := 0
  employment_income := 0
  ssn_start_age := 70
  employment_end_age := 70
  cash_start := 0
  ira_start := 0
  self_years := 10
  self_cost := 30000
  ind_cost := 0
  assist_years := 10
  assist_cost := 0
  memory_years := 10
  memory_cost := 0
  avg_tax_rate := 3/10
  cap_gains_rate := 1/4
  living_infl := 0
  care_infl := 0
  stock_growth := 1/20
  cash_growth := 0
  debt_interest_rate := 2/25


def ex1St1 : St :=
  ⟨0, 0, 0, 0, 0, 0, 0, 0, (575000/7 : ℚ), 0, 0, 0, 0, 0, 0, 0, 0, 12, 0, 0, 0, 0, 0, 0, 0⟩

def ex1Row0 : Row :=
  ⟨70, 57500, 30000, -16000, 14000, 0, 0, 0, 0, 0, 0, (575000/7 : ℚ), 57500, 0, 0, 0, 0, 0, 0, 0,
    0, 0, 0, 0, 0, 0, 0, (160000/7 : ℚ), (48000/7 : ℚ), 0, 0, false, false, 0, 0,
    .selfSufficient, 30000, 0, 1, 30000⟩

lemma step_ex1_0 : step exampleCfg1 0 70 (initSt exampleCfg1) = (ex1St1, ex1Row0) := by
  have hp : stepPre exampleCfg1 0 70 (initSt exampleCfg1) =
      ⟨0, 0, 0, 0, 0, 0, 0, 0, 0, 0, 0, ⟨0, 0, 0, 0, 0⟩, ⟨0, 0, 0, 0, 0⟩, ⟨0, 0, 0, 0, 12⟩, 30000,
    30000, 0, 1, 30000⟩ := by
    norm_num [stepPre, initSt, exampleCfg1, tierBaseCost, serviceMortgage, noServiceMortgage,
    Config.monthly_mortgage_payment, Config.monthly_mortgage_rate,
    Config.home2_monthly_mortgage_payment, Config.home2_monthly_mortgage_rate,
    Config.purchase_monthly_mortgage_payment, Config.purchase_monthly_mortgage_rate,
    Config.loan_amount, Config.down_payment, calculate_monthly_payment,
    calculate_annual_mortgage_amortization, amortMonths]
  have hg : stepGrow exampleCfg1 (initSt exampleCfg1) =
      ⟨⟨0, 0, 0, 0, 0⟩, ⟨0, 0, 0, 0, 0⟩, 105000⟩ := by
    norm_num [stepGrow, initSt, exampleCfg1, growBucket]
  have hsl : stepSales exampleCfg1 0
      ⟨0, 0, 0, 0, 0, 0, 0, 0, 0, 0, 0, ⟨0, 0, 0, 0, 0⟩, ⟨0, 0, 0, 0, 0⟩, ⟨0, 0, 0, 0, 12⟩, 30000,
    30000, 0, 1, 30000⟩
      ⟨⟨0, 0, 0, 0, 0⟩, ⟨0, 0, 0, 0, 0⟩, 105000⟩ =
      ⟨0, 0, false, false, ⟨0, 0, 0, 0, 0, 0, 0, 0⟩, ⟨0, 0, 0, 0, 0, 0, 0, 0⟩⟩ := by
    norm_num [stepSales, exampleCfg1, liquidValue, primarySale, secondSale]
  have hr : stepResolve exampleCfg1 0 70
      ⟨0, 0, 0, 0, 0, 0, 0, 0, 0, 0, 0, ⟨0, 0, 0, 0, 0⟩, ⟨0, 0, 0, 0, 0⟩, ⟨0, 0, 0, 0, 12⟩, 30000,
    30000, 0, 1, 30000⟩
      ⟨⟨0, 0, 0, 0, 0⟩, ⟨0, 0, 0, 0, 0⟩, 105000⟩
      ⟨0, 0, false, false, ⟨0, 0, 0, 0, 0, 0, 0, 0⟩, ⟨0, 0, 0, 0, 0, 0, 0, 0⟩⟩ =
      ⟨14000, -16000, ⟨0, 0, 0, 0, 0, 0, 0, 0, (575000/7 : ℚ), 0, 0, 0, 0, (160000/7 : ℚ), (48000/7 :
    ℚ), 0, 0, 0⟩⟩ := by
    norm_num [stepResolve, exampleCfg1, resolveCashFlow, cascade, takeTaxedBucket, takeIraBucket,
      takeDebt]
  have ha : stepAssemble exampleCfg1 70
      ⟨0, 0, 0, 0, 0, 0, 0, 0, 0, 0, 0, ⟨0, 0, 0, 0, 0⟩, ⟨0, 0, 0, 0, 0⟩, ⟨0, 0, 0, 0, 12⟩, 30000,
    30000, 0, 1, 30000⟩
      ⟨0, 0, false, false, ⟨0, 0, 0, 0, 0, 0, 0, 0⟩, ⟨0, 0, 0, 0, 0, 0, 0, 0⟩⟩
      ⟨14000, -16000, ⟨0, 0, 0, 0, 0, 0, 0, 0, (575000/7 : ℚ), 0, 0, 0, 0, (160000/7 : ℚ), (48000/7 :
    ℚ), 0, 0, 0⟩⟩ =
      (ex1St1, ex1Row0) := by
    norm_num [stepAssemble, expenseTypeOf, exampleCfg1, ex1St1, ex1Row0]
  simp only [step, hp, hg, hsl, hr, ha]

def ex1St2 : St :=
  ⟨0, 0, 0, 0, 0, 0, 0, 0, (443750/7 : ℚ), 0, 0, 0, 0, 0, 0, 0, 0, 12, 0, 0, 0, 0, 0, 0, 0⟩

def ex1Row1 : Row :=
  ⟨71, 44375, 30000, -16000, 14000, 0, 0, 0, 0, 0, 0, (443750/7 : ℚ), 44375, 0, 0, 0, 0, 0, 0, 0,
    0, 0, 0, 0, 0, 0, 0, (160000/7 : ℚ), (48000/7 : ℚ), 0, 0, false, false, 0, 0,
    .selfSufficient, 30000, 0, 1, 30000⟩

lemma step_ex1_1 : step exampleCfg1 1 71 ex1St1 = (ex1St2, ex1Row1) := by
  have hp : stepPre exampleCfg1 1 71 ex1St1 =
      ⟨0, 0, 0, 0, 0, 0, 0, 0, 0, 0, 0, ⟨0, 0, 0, 0, 0⟩, ⟨0, 0, 0, 0, 0⟩, ⟨0, 0, 0, 0, 12⟩, 30000,
    30000, 0, 1, 30000⟩ := by
    norm_num [stepPre, initSt, exampleCfg1, tierBaseCost, serviceMortgage, noServiceMortgage,
    Config.monthly_mortgage_payment, Config.monthly_mortgage_rate,
    Config.home2_monthly_mortgage_payment, Config.home2_monthly_mortgage_rate,
    Config.purchase_monthly_mortgage_payment, Config.purchase_monthly_mortgage_rate,
    Config.loan_amount, Config.down_payment, calculate_monthly_payment,
    calculate_annual_mortgage_amortization, amortMonths, ex1St1]
  have hg : stepGrow exampleCfg1 ex1St1 =
      ⟨⟨0, 0, 0, 0, 0⟩, ⟨0, 0, 0, 0, 0⟩, 86250⟩ := by
    norm_num [stepGrow, initSt, exampleCfg1, growBucket, ex1St1]
  have hsl : stepSales exampleCfg1 1
      ⟨0, 0, 0, 0, 0, 0, 0, 0, 0, 0, 0, ⟨0, 0, 0, 0, 0⟩, ⟨0, 0, 0, 0, 0⟩, ⟨0, 0, 0, 0, 12⟩, 30000,
    30000, 0, 1, 30000⟩
      ⟨⟨0, 0, 0, 0, 0⟩, ⟨0, 0, 0, 0, 0⟩, 86250⟩ =
      ⟨0, 0, false, false, ⟨0, 0, 0, 0, 0, 0, 0, 0⟩, ⟨0, 0, 0, 0, 0, 0, 0, 0⟩⟩ := by
    norm_num [stepSales, exampleCfg1, liquidValue, primarySale, secondSale]
  have hr : stepResolve exampleCfg1 1 71
      ⟨0, 0, 0, 0, 0, 0, 0, 0, 0, 0, 0, ⟨0, 0, 0, 0, 0⟩, ⟨0, 0, 0, 0, 0⟩, ⟨0, 0, 0, 0, 12⟩, 30000,
    30000, 0, 1, 30000⟩
      ⟨⟨0, 0, 0, 0, 0⟩, ⟨0, 0, 0, 0, 0⟩, 86250⟩
      ⟨0, 0, false, false, ⟨0, 0, 0, 0, 0, 0, 0, 0⟩, ⟨0, 0, 0, 0, 0, 0, 0, 0⟩⟩ =
      ⟨14000, -16000, ⟨0, 0, 0, 0, 0, 0, 0, 0, (443750/7 : ℚ), 0, 0, 0, 0, (160000/7 : ℚ), (48000/7 :
    ℚ), 0, 0, 0⟩⟩ := by
    norm_num [stepResolve, exampleCfg1, resolveCashFlow, cascade, takeTaxedBucket, takeIraBucket,
      takeDebt]
  have ha : stepAssemble exampleCfg1 71
      ⟨0, 0, 0, 0, 0, 0, 0, 0, 0, 0, 0, ⟨0, 0, 0, 0, 0⟩, ⟨0, 0, 0, 0, 0⟩, ⟨0, 0, 0, 0, 12⟩, 30000,
    30000, 0, 1, 30000⟩
      ⟨0, 0, false, false, ⟨0, 0, 0, 0, 0, 0, 0, 0⟩, ⟨0, 0, 0, 0, 0, 0, 0, 0⟩⟩
      ⟨14000, -16000, ⟨0, 0, 0, 0, 0, 0, 0, 0, (443750/7 : ℚ), 0, 0, 0, 0, (160000/7 : ℚ), (48000/7 :
    ℚ), 0, 0, 0⟩⟩ =
      (ex1St2, ex1Row1) := by
    norm_num [stepAssemble, expenseTypeOf, exampleCfg1, ex1St2, ex1Row1]
  simp only [step, hp, hg, hsl, hr, ha]

def ex1St3 : St :=
  ⟨0, 0, 0, 0, 0, 0, 0, 0, (611875/14 : ℚ), 0, 0, 0, 0, 0, 0, 0, 0, 12, 0, 0, 0, 0, 0, 0, 0⟩

def ex1Row2 : Row :=
  ⟨72, (122375/4 : ℚ), 30000, -16000, 14000, 0, 0, 0, 0, 0, 0, (611875/14 : ℚ), (122375/4 : ℚ), 0,
    0, 0, 0, 0, 0, 0, 0, 0, 0, 0, 0, 0, 0, (160000/7 : ℚ), (48000/7 : ℚ), 0, 0, false, false, 0,
    0, .selfSufficient, 30000, 0, 1, 30000⟩

lemma step_ex1_2 : step exampleCfg1 2 72 ex1St2 = (ex1St3, ex1Row2) := by
  have hp : stepPre exampleCfg1 2 72 ex1St2 =
      ⟨0, 0, 0, 0, 0, 0, 0, 0, 0, 0, 0, ⟨0, 0, 0, 0, 0⟩, ⟨0, 0, 0, 0, 0⟩, ⟨0, 0, 0, 0, 12⟩, 30000,
    30000, 0, 1, 30000⟩ := by
    norm_num [stepPre, initSt, exampleCfg1, tierBaseCost, serviceMortgage, noServiceMortgage,
    Config.monthly_mortgage_payment, Config.monthly_mortgage_rate,
    Config.home2_monthly_mortgage_payment, Config.home2_monthly_mortgage_rate,
    Config.purchase_monthly_mortgage_payment, Config.purchase_monthly_mortgage_rate,
    Config.loan_amount, Config.down_payment, calculate_monthly_payment,
    calculate_annual_mortgage_amortization, amortMonths, ex1St2]
  have hg : stepGrow exampleCfg1 ex1St2 =
      ⟨⟨0, 0, 0, 0, 0⟩, ⟨0, 0, 0, 0, 0⟩, (133125/2 : ℚ)⟩ := by
    norm_num [stepGrow, initSt, exampleCfg1, growBucket, ex1St2]
  have hsl : stepSales exampleCfg1 2
      ⟨0, 0, 0, 0, 0, 0, 0, 0, 0, 0, 0, ⟨0, 0, 0, 0, 0⟩, ⟨0, 0, 0, 0, 0⟩, ⟨0, 0, 0, 0, 12⟩, 30000,
    30000, 0, 1, 30000⟩
      ⟨⟨0, 0, 0, 0, 0⟩, ⟨0, 0, 0, 0, 0⟩, (133125/2 : ℚ)⟩ =
      ⟨0, 0, false, false, ⟨0, 0, 0, 0, 0, 0, 0, 0⟩, ⟨0, 0, 0, 0, 0, 0, 0, 0⟩⟩ := by
    norm_num [stepSales, exampleCfg1, liquidValue, primarySale, secondSale]
  have hr : stepResolve exampleCfg1 2 72
      ⟨0, 0, 0, 0, 0, 0, 0, 0, 0, 0, 0, ⟨0, 0, 0, 0, 0⟩, ⟨0, 0, 0, 0, 0⟩, ⟨0, 0, 0, 0, 12⟩, 30000,
    30000, 0, 1, 30000⟩
      ⟨⟨0, 0, 0, 0, 0⟩, ⟨0, 0, 0, 0, 0⟩, (133125/2 : ℚ)⟩
      ⟨0, 0, false, false, ⟨0, 0, 0, 0, 0, 0, 0, 0⟩, ⟨0, 0, 0, 0, 0, 0, 0, 0⟩⟩ =
      ⟨14000, -16000, ⟨0, 0, 0, 0, 0, 0, 0, 0, (611875/14 : ℚ), 0, 0, 0, 0, (160000/7 : ℚ), (48000/7 :
    ℚ), 0, 0, 0⟩⟩ := by
    norm_num [stepResolve, exampleCfg1, resolveCashFlow, cascade, takeTaxedBucket, takeIraBucket,
      takeDebt]
  have ha : stepAssemble exampleCfg1 72
      ⟨0, 0, 0, 0, 0, 0, 0, 0, 0, 0, 0, ⟨0, 0, 0, 0, 0⟩, ⟨0, 0, 0, 0, 0⟩, ⟨0, 0, 0, 0, 12⟩, 30000,
    30000, 0, 1, 30000⟩
      ⟨0, 0, false, false, ⟨0, 0, 0, 0, 0, 0, 0, 0⟩, ⟨0, 0, 0, 0, 0, 0, 0, 0⟩⟩
      ⟨14000, -16000, ⟨0, 0, 0, 0, 0, 0, 0, 0, (611875/14 : ℚ), 0, 0, 0, 0, (160000/7 : ℚ), (48000/7 :
    ℚ), 0, 0, 0⟩⟩ =
      (ex1St3, ex1Row2) := by
    norm_num [stepAssemble, expenseTypeOf, exampleCfg1, ex1St3, ex1Row2]
  simp only [step, hp, hg, hsl, hr, ha]

lemma run_ex1 : run exampleCfg1 = [ex1Row0, ex1Row1, ex1Row2] := by
  have hn : numYears exampleCfg1 = 3 := by norm_num [numYears, exampleCfg1]
  have hsa : Config.start_age exampleCfg1 = 70 := rfl
  rw [run, hn]
  simp only [stepsFrom, hsa, Nat.reduceAdd, Nat.add_zero, step_ex1_0, step_ex1_1, step_ex1_2]

def ex2St1 : St :=
  ⟨0, 0, 0, 0, 0, 0, 0, 0, 0, 0, 0, 0, 0, 0, 0, 0, 0, 12, 0, 0, 0, 0, 0, 0, 0⟩

def ex2Row0 : Row :=
  ⟨70, 0, 30000, -30000, 0, 0, 0, 0, 0, 0, 0, 0, 0, 0, 0, 0, 0, 0, 0, 0, 0, 0, 0, 0, 0, 0, 0, 0,
    0, 0, 30000, false, true, 0, 0, .selfSufficient, 30000, 0, 1, 30000⟩

lemma step_ex2_0 : step exampleCfg2 0 70 (initSt exampleCfg2) = (ex2St1, ex2Row0) := by
  have hp : stepPre exampleCfg2 0 70 (initSt exampleCfg2) =
      ⟨0, 0, 0, 0, 0, 0, 0, 0, 0, 0, 0, ⟨0, 0, 0, 0, 0⟩, ⟨0, 0, 0, 0, 0⟩, ⟨0, 0, 0, 0, 12⟩, 30000,
    30000, 0, 1, 30000⟩ := by
    norm_num [stepPre, initSt, exampleCfg2, tierBaseCost, serviceMortgage, noServiceMortgage,
    Config.monthly_mortgage_payment, Config.monthly_mortgage_rate,
    Config.home2_monthly_mortgage_payment, Config.home2_monthly_mortgage_rate,
    Config.purchase_monthly_mortgage_payment, Config.purchase_monthly_mortgage_rate,
    Config.loan_amount, Config.down_payment, calculate_monthly_payment,
    calculate_annual_mortgage_amortization, amortMonths]
  have hg : stepGrow exampleCfg2 (initSt exampleCfg2) =
      ⟨⟨0, 0, 0, 0, 0⟩, ⟨0, 0, 0, 0, 0⟩, 0⟩ := by
    norm_num [stepGrow, initSt, exampleCfg2, growBucket]
  have hsl : stepSales exampleCfg2 0
      ⟨0, 0, 0, 0, 0, 0, 0, 0, 0, 0, 0, ⟨0, 0, 0, 0, 0⟩, ⟨0, 0, 0, 0, 0⟩, ⟨0, 0, 0, 0, 12⟩, 30000,
    30000, 0, 1, 30000⟩
      ⟨⟨0, 0, 0, 0, 0⟩, ⟨0, 0, 0, 0, 0⟩, 0⟩ =
      ⟨0, 0, false, true, ⟨0, 0, 0, 0, 0, 0, 0, 0⟩, ⟨0, 0, 0, 0, 0, 0, 0, 0⟩⟩ := by
    norm_num [stepSales, exampleCfg2, liquidValue, primarySale, secondSale]
  have hr : stepResolve exampleCfg2 0 70
      ⟨0, 0, 0, 0, 0, 0, 0, 0, 0, 0, 0, ⟨0, 0, 0, 0, 0⟩, ⟨0, 0, 0, 0, 0⟩, ⟨0, 0, 0, 0, 12⟩, 30000,
    30000, 0, 1, 30000⟩
      ⟨⟨0, 0, 0, 0, 0⟩, ⟨0, 0, 0, 0, 0⟩, 0⟩
      ⟨0, 0, false, true, ⟨0, 0, 0, 0, 0, 0, 0, 0⟩, ⟨0, 0, 0, 0, 0, 0, 0, 0⟩⟩ =
      ⟨0, -30000, ⟨0, 0, 0, 0, 0, 0, 0, 0, 0, 0, 0, 0, 0, 0, 0, 0, 0, 30000⟩⟩ := by
    norm_num [stepResolve, exampleCfg2, resolveCashFlow, cascade, takeTaxedBucket, takeIraBucket,
      takeDebt]
  have ha : stepAssemble exampleCfg2 70
      ⟨0, 0, 0, 0, 0, 0, 0, 0, 0, 0, 0, ⟨0, 0, 0, 0, 0⟩, ⟨0, 0, 0, 0, 0⟩, ⟨0, 0, 0, 0, 12⟩, 30000,
    30000, 0, 1, 30000⟩
      ⟨0, 0, false, true, ⟨0, 0, 0, 0, 0, 0, 0, 0⟩, ⟨0, 0, 0, 0, 0, 0, 0, 0⟩⟩
      ⟨0, -30000, ⟨0, 0, 0, 0, 0, 0, 0, 0, 0, 0, 0, 0, 0, 0, 0, 0, 0, 30000⟩⟩ =
      (ex2St1, ex2Row0) := by
    norm_num [stepAssemble, expenseTypeOf, exampleCfg2, ex2St1, ex2Row0]
  simp only [step, hp, hg, hsl, hr, ha]

lemma run_ex2 : run exampleCfg2 = [ex2Row0] := by
  have hn : numYears exampleCfg2 = 1 := by norm_num [numYears, exampleCfg2]
  have hsa : Config.start_age exampleCfg2 = 70 := rfl
  rw [run, hn]
  simp only [stepsFrom, hsa, Nat.reduceAdd, Nat.add_zero, step_ex2_0]


/-! ### Projection-row projection lemmas -/

lemma step_row_tier (c : Config) (i age : ℕ) (s : St) :
    (step c i age s).2.expense_type = expenseTypeOf c age ∧
    (step c i age s).2.expense_base_cost = (tierBaseCost c age).1 ∧
    (step c i age s).2.expense_inflation_rate = (tierBaseCost c age).2 ∧
    (step c i age s).2.expense_inflated_base_cost =
      (tierBaseCost c age).1 * (1 + (tierBaseCost c age).2) ^ i :=
  ⟨rfl, rfl, rfl, rfl⟩

/-! ### Claim C1 -/

/-- Claim C1: for the spec's example scenario (start_age 70, end_age 72, one
fully-ordinary-taxed bucket with balance 100000 and growth 0.05, one income
stream of 20000 per year taxed at 0.30, a flat 30000 per year expense tier
with zero inflation, no properties, no debt), the engine produces in year 1
net income 14000, expenses 30000, cash flow -16000, a gross withdrawal of
16000/(1-0.30) = 22857.14 from the bucket, and an ending bucket balance of
105000 - 22857.14 = 82142.86; in year 2 the balance first grows to 86250.00
and the same deficit arithmetic repeats. -/
theorem claim_C1_example_scenario :
    (run exampleCfg1).length = 3 ∧
    ((run exampleCfg1).getD 0 default).income = 14000 ∧
    ((run exampleCfg1).getD 0 default).expenses = 30000 ∧
    ((run exampleCfg1).getD 0 default).cash_flow = -16000 ∧
    ((run exampleCfg1).getD 0 default).ira_withdrawal = 16000 / (1 - 3/10) ∧
    |((run exampleCfg1).getD 0 default).ira_withdrawal - 22857.14| < 1/100 ∧
    ((run exampleCfg1).getD 0 default).ira = 100000 * (1 + 1/20) - 16000 / (1 - 3/10) ∧
    |((run exampleCfg1).getD 0 default).ira - 82142.86| < 1/100 ∧
    ((run exampleCfg1).getD 0 default).ira * (1 + 1/20) = 86250 ∧
    ((run exampleCfg1).getD 1 default).income = 14000 ∧
    ((run exampleCfg1).getD 1 default).expenses = 30000 ∧
    ((run exampleCfg1).getD 1 default).cash_flow = -16000 ∧
    ((run exampleCfg1).getD 1 default).ira_withdrawal = 16000 / (1 - 3/10) ∧
    ((run exampleCfg1).getD 1 default).ira = 86250 - 16000 / (1 - 3/10) := by
  rw [run_ex1]
  refine ⟨rfl, ?_⟩
  norm_num [ex1Row0, ex1Row1, abs_sub_lt_iff, abs_lt]

/-! ### Claim C5 -/

/-- Claim C5 counterexample: a concrete one-year scenario (no assets, no
income, 30000 of expenses, a configured 8 percent debt facility, the primary
home never owned and its sale year still in the future) in which a 30000
deficit remains after the cascade has visited all three depleted buckets,
yet NO debt is taken: the engine's extra home-availability conditions
(src/app.py lines 1422-1425) block the borrowing that the claim asserts
always happens. -/
theorem claim_C5_counterexample :
    exampleCfg2.debt_interest_rate = 2/25 ∧
    ((run exampleCfg2).getD 0 default).money_market = 0 ∧
    ((run exampleCfg2).getD 0 default).brokerage = 0 ∧
    ((run exampleCfg2).getD 0 default).ira = 0 ∧
    ((run exampleCfg2).getD 0 default).deficit_remaining = 30000 ∧
    ((run exampleCfg2).getD 0 default).debt_taken = 0 ∧
    ((run exampleCfg2).getD 0 default).debt_balance = 0 := by
  rw [run_ex2]
  refine ⟨rfl, ?_⟩
  norm_num [ex2Row0]

/-- Claim C5 amended: when a deficit remains after all three buckets are
depleted (at or below the 0.01 epsilon), the entire remaining deficit is
added to the debt balance, uncapped, IF additionally each home is either
still owned with positive value before its sale year or already past its
sale year with the brokerage depleted; otherwise no debt is taken and the
deficit is left unresolved. -/
theorem claim_C5_amended (i sell h2sell : ℕ) (hv h2v mm br ira db d : ℚ)
    (hd : 0 < d) (hmm : mm ≤ 1/100) (hbr : br ≤ 1/100) (hira : ira ≤ 1/100) :
    (((i < sell ∧ 0 < hv) ∨ (sell ≤ i ∧ br ≤ 1/100)) ∧
        ((i < h2sell ∧ 0 < h2v) ∨ (h2sell ≤ i ∧ br ≤ 1/100)) →
      takeDebt i sell h2sell hv h2v mm br ira db d = ⟨d, db + d, 0⟩) ∧
    (¬ (((i < sell ∧ 0 < hv) ∨ (sell ≤ i ∧ br ≤ 1/100)) ∧
        ((i < h2sell ∧ 0 < h2v) ∨ (h2sell ≤ i ∧ br ≤ 1/100))) →
      takeDebt i sell h2sell hv h2v mm br ira db d = ⟨0, db, d⟩) := by
  constructor
  · intro havail
    rw [takeDebt, if_pos hd, if_pos ⟨hmm, hbr, hira, havail.1, havail.2⟩]
  · intro havail
    rw [takeDebt, if_pos hd, if_neg ?_]
    intro hcon
    exact havail ⟨hcon.2.2.2.1, hcon.2.2.2.2⟩

/-- Witness for the amended claim C5 at concrete inputs. -/
theorem claim_C5_amended_witness :
    (0 : ℚ) < 30000 ∧ (0 : ℚ) ≤ 1/100 ∧
    takeDebt 3 5 0 100 0 0 0 0 0 30000 = ⟨30000, 0 + 30000, 0⟩ := by
  refine ⟨by norm_num, by norm_num, ?_⟩
  exact (claim_C5_amended 3 5 0 100 0 0 0 0 0 30000 (by norm_num) (by norm_num)
    (by norm_num) (by norm_num)).1
    ⟨Or.inl ⟨by norm_num, by norm_num⟩, Or.inr ⟨by norm_num, by norm_num⟩⟩

/-! ### Claim C7 -/

/-- Claim C7: for every year j (years elapsed since simulation start) and the
active expense tier of that year, the tier's inflated annual cost equals
base_cost times (1 + tier_inflation_rate) to the power j: the compounding
exponent is the number of years since simulation start. -/
theorem claim_C7_inflation_exponent (c : Config) (j : ℕ) (hj : j < (run c).length) :
    ((run c).getD j default).expense_inflated_base_cost =
      ((run c).getD j default).expense_base_cost *
        (1 + ((run c).getD j default).expense_inflation_rate) ^ j := by
  rw [run_getD c j hj]
  rw [(step_row_tier c j (c.start_age + j) _).2.2.2.trans rfl,
    (step_row_tier c j (c.start_age + j) _).2.1,
    (step_row_tier c j (c.start_age + j) _).2.2.1]

/-- Witness for claim C7. -/
theorem claim_C7_witness :
    1 < (run exampleCfg1).length ∧
    (((run exampleCfg1).getD 1 default).expense_inflated_base_cost =
      ((run exampleCfg1).getD 1 default).expense_base_cost *
        (1 + ((run exampleCfg1).getD 1 default).expense_inflation_rate) ^ 1) := by
  have h : 1 < (run exampleCfg1).length := by rw [run_ex1]; norm_num
  exact ⟨h, claim_C7_inflation_exponent exampleCfg1 1 h⟩

/-! ### Claim C8 -/

/-- Claim C8: for every year the active expense tier is chosen by comparing
the current age against cumulative tier-duration boundaries measured from
start_age; with durations d1 = self_years, d2 = assist_years - self_years,
d3 = memory_years - assist_years, the k-th tier (self-sufficient,
independent, assisted, memory-care) is active exactly when the age lies
between the sum of the preceding durations and that sum plus the k-th
duration (the last tier being unbounded above). -/
theorem claim_C8_tier_selection (c : Config) (h1 : c.self_years ≤ c.assist_years)
    (h2 : c.assist_years ≤ c.memory_years) :
    (∀ j, j < (run c).length →
      ((run c).getD j default).expense_type = expenseTypeOf c (c.start_age + j) ∧
      ((run c).getD j default).expense_base_cost = (tierBaseCost c (c.start_age + j)).1) ∧
    (∀ age, c.start_age ≤ age →
      ((expenseTypeOf c age = .selfSufficient ↔
          c.start_age ≤ age ∧ age < c.start_age + c.self_years) ∧
       (expenseTypeOf c age = .independentLiving ↔
          c.start_age + c.self_years ≤ age ∧
            age < c.start_age + (c.self_years + (c.assist_years - c.self_years))) ∧
       (expenseTypeOf c age = .assistedLiving ↔
          c.start_age + (c.self_years + (c.assist_years - c.self_years)) ≤ age ∧
            age < c.start_age + (c.self_years + (c.assist_years - c.self_years) +
              (c.memory_years - c.assist_years))) ∧
       (expenseTypeOf c age = .memoryCare ↔
          c.start_age + (c.self_years + (c.assist_years - c.self_years) +
            (c.memory_years - c.assist_years)) ≤ age))) := by
  constructor
  · intro j hj
    rw [run_getD c j hj]
    exact ⟨(step_row_tier c j (c.start_age + j) _).1, (step_row_tier c j (c.start_age + j) _).2.1⟩
  · intro age hage
    unfold expenseTypeOf
    refine ⟨?_, ?_, ?_, ?_⟩ <;> split_ifs with h3 h4 h5 <;> simp <;> omega

/-- Witness for claim C8. -/
theorem claim_C8_witness :
    exampleCfg1.self_years ≤ exampleCfg1.assist_years ∧
    exampleCfg1.assist_years ≤ exampleCfg1.memory_years ∧
    ((∀ j, j < (run exampleCfg1).length →
      ((run exampleCfg1).getD j default).expense_type =
        expenseTypeOf exampleCfg1 (exampleCfg1.start_age + j) ∧
      ((run exampleCfg1).getD j default).expense_base_cost =
        (tierBaseCost exampleCfg1 (exampleCfg1.start_age + j)).1) ∧
    (∀ age, exampleCfg1.start_age ≤ age →
      ((expenseTypeOf exampleCfg1 age = .selfSufficient ↔
          exampleCfg1.start_age ≤ age ∧
            age < exampleCfg1.start_age + exampleCfg1.self_years) ∧
       (expenseTypeOf exampleCfg1 age = .independentLiving ↔
          exampleCfg1.start_age + exampleCfg1.self_years ≤ age ∧
            age < exampleCfg1.start_age + (exampleCfg1.self_years +
              (exampleCfg1.assist_years - exampleCfg1.self_years))) ∧
       (expenseTypeOf exampleCfg1 age = .assistedLiving ↔
          exampleCfg1.start_age + (exampleCfg1.self_years +
              (exampleCfg1.assist_years - exampleCfg1.self_years)) ≤ age ∧
            age < exampleCfg1.start_age + (exampleCfg1.self_years +
              (exampleCfg1.assist_years - exampleCfg1.self_years) +
              (exampleCfg1.memory_years - exampleCfg1.assist_years))) ∧
       (expenseTypeOf exampleCfg1 age = .memoryCare ↔
          exampleCfg1.start_age + (exampleCfg1.self_years +
            (exampleCfg1.assist_years - exampleCfg1.self_years) +
            (exampleCfg1.memory_years - exampleCfg1.assist_years)) ≤ age)))) := by
  refine ⟨le_refl _, le_refl _, ?_⟩
  exact claim_C8_tier_selection exampleCfg1 (le_refl _) (le_refl _)

/-! ### Claim C9 -/

/-- Claim C9: the mortgage arithmetic is total and never divides by zero:
calculate_monthly_payment returns 0 when principal or years is nonpositive,
returns the straight-line payment principal/(years*12) when the rate is
zero, and otherwise evaluates the standard amortization formula with a
provably nonzero denominator; calculate_annual_mortgage_amortization
returns (0, 0, 0) when principal or months_remaining is nonpositive. -/
theorem claim_C9_amortization_totality :
    (∀ (p r : ℚ) (y : ℤ), p ≤ 0 ∨ y ≤ 0 → calculate_monthly_payment p r y = 0) ∧
    (∀ (p : ℚ) (y : ℤ), 0 < p → 0 < y →
      calculate_monthly_payment p 0 y = p / ((y.toNat * 12 : ℕ) : ℚ)) ∧
    (∀ (p r : ℚ) (y : ℤ), 0 < p → 0 < y → 0 < r →
      (1 + r / 12) ^ (y.toNat * 12) - 1 ≠ 0 ∧
      calculate_monthly_payment p r y =
        p * ((r / 12) * (1 + r / 12) ^ (y.toNat * 12)) /
          ((1 + r / 12) ^ (y.toNat * 12) - 1)) ∧
    (∀ (p mp mr : ℚ) (m : ℤ), p ≤ 0 ∨ m ≤ 0 →
      calculate_annual_mortgage_amortization p mp mr m = (0, 0, 0)) := by
  refine ⟨?_, ?_, ?_, ?_⟩
  · intro p r y h
    rw [calculate_monthly_payment, if_pos h]
  · intro p y hp hy
    rw [calculate_monthly_payment, if_neg (by push_neg; exact ⟨hp, hy⟩)]
    norm_num
  · intro p r y hp hy hr
    have hone : (1 : ℚ) < 1 + r / 12 := by linarith
    have hn : y.toNat * 12 ≠ 0 := by
      have : 0 < y.toNat := by omega
      positivity
    have hpow : (1 : ℚ) < (1 + r / 12) ^ (y.toNat * 12) := one_lt_pow₀ hone hn
    refine ⟨by linarith, ?_⟩
    rw [calculate_monthly_payment, if_neg (by push_neg; exact ⟨hp, hy⟩),
      if_neg (by positivity)]
  · intro p mp mr m h
    rw [calculate_annual_mortgage_amortization, if_pos h]

/-- Witness for claim C9 at concrete inputs. -/
theorem claim_C9_witness :
    calculate_monthly_payment (-5) (1/10) 30 = 0 ∧
    calculate_monthly_payment 1200 0 10 = 1200 / (((10 : ℤ).toNat * 12 : ℕ) : ℚ) ∧
    (((1 : ℚ) + (1/10) / 12) ^ ((1 : ℤ).toNat * 12) - 1 ≠ 0 ∧
      calculate_monthly_payment 1200 (1/10) 1 =
        1200 * (((1/10) / 12) * (1 + (1/10) / 12) ^ ((1 : ℤ).toNat * 12)) /
          (((1 : ℚ) + (1/10) / 12) ^ ((1 : ℤ).toNat * 12) - 1)) ∧
    calculate_annual_mortgage_amortization 100 5 (1/100) 0 = (0, 0, 0) :=
  ⟨claim_C9_amortization_totality.1 (-5) (1/10) 30 (Or.inl (by norm_num)),
   claim_C9_amortization_totality.2.1 1200 10 (by norm_num) (by norm_num),
   claim_C9_amortization_totality.2.2.1 1200 (1/10) 1 (by norm_num) (by norm_num) (by norm_num),
   claim_C9_amortization_totality.2.2.2 100 5 (1/100) 0 (Or.inr (by norm_num))⟩

/-! ### Claim C10 -/

/-- Claim C10: when the primary home is sold the brokerage cost basis is
overwritten with exactly the sale's net proceeds and the tax-deferred
component is reset to zero, discarding whatever tracking the brokerage held
before; when the second home is sold its proceeds are added to the existing
balance and cost basis and the existing tax-deferred component is kept.
The sale events fire exactly when the year offset equals the respective
configured sale year. -/
theorem claim_C10_sale_basis_reset :
    (∀ (br cb td prev hv lq mb : ℚ) (mo : ℤ),
      (primarySale true br cb td prev hv lq mb mo).brokerage = br + lq ∧
      (primarySale true br cb td prev hv lq mb mo).brokerage_cost_basis = lq ∧
      (primarySale true br cb td prev hv lq mb mo).brokerage_tax_deferred = 0) ∧
    (∀ (br cb td prev hv lq mb : ℚ) (mo : ℤ),
      (secondSale true br cb td prev hv lq mb mo).brokerage = br + lq ∧
      (secondSale true br cb td prev hv lq mb mo).brokerage_cost_basis = cb + lq ∧
      (secondSale true br cb td prev hv lq mb mo).brokerage_tax_deferred = td) ∧
    (∀ (c : Config) (i : ℕ) (p : PreOut) (g : GrowOut),
      (stepSales c i p g).home_sale_this_year = decide (i = c.sell_home_years) ∧
      (stepSales c i p g).home2_sale_this_year = decide (i = c.home2_sell_home_years)) := by
  refine ⟨?_, ?_, ?_⟩
  · intro br cb td prev hv lq mb mo
    refine ⟨?_, ?_, ?_⟩ <;> simp [primarySale]
  · intro br cb td prev hv lq mb mo
    refine ⟨?_, ?_, ?_⟩ <;> simp [secondSale]
  · intro c i p g
    exact ⟨rfl, rfl⟩


/-! ### Cascade stage lemmas -/

lemma takeTaxedBucket_net (g d b cb td p : ℚ) :
    (takeTaxedBucket g d b cb td p).deficit =
      d - ((takeTaxedBucket g d b cb td p).withdrawal -
        (takeTaxedBucket g d b cb td p).withdrawal_tax) := by
  simp only [takeTaxedBucket]
  split_ifs <;> simp <;> ring

lemma takeIraBucket_net (t d b : ℚ) :
    (takeIraBucket t d b).deficit =
      d - ((takeIraBucket t d b).withdrawal - (takeIraBucket t d b).withdrawal_tax) := by
  simp only [takeIraBucket]
  split_ifs <;> simp <;> ring

lemma takeDebt_split (i sy h2y : ℕ) (hv h2v mm br ira db d : ℚ) :
    (takeDebt i sy h2y hv h2v mm br ira db d).taken +
      (takeDebt i sy h2y hv h2v mm br ira db d).deficit = d ∧
    (takeDebt i sy h2y hv h2v mm br ira db d).balance =
      db + (takeDebt i sy h2y hv h2v mm br ira db d).taken := by
  simp only [takeDebt]
  split_ifs <;> simp <;> ring

/-- The withdrawals, debt taken and remaining deficit of the cascade account
exactly for the initial deficit. -/
lemma cascade_conservation (c : Config) (i : ℕ)
    (d0 mm mm_cb mm_td mm_prev br br_cb br_td br_prev ira hv h2v db : ℚ) :
    ((cascade c i d0 mm mm_cb mm_td mm_prev br br_cb br_td br_prev ira hv h2v db).mm_withdrawal -
        (cascade c i d0 mm mm_cb mm_td mm_prev br br_cb br_td br_prev ira hv h2v db).mm_withdrawal_tax) +
      ((cascade c i d0 mm mm_cb mm_td mm_prev br br_cb br_td br_prev ira hv h2v db).brokerage_withdrawal -
        (cascade c i d0 mm mm_cb mm_td mm_prev br br_cb br_td br_prev ira hv h2v db).brokerage_withdrawal_tax) +
      ((cascade c i d0 mm mm_cb mm_td mm_prev br br_cb br_td br_prev ira hv h2v db).ira_withdrawal -
        (cascade c i d0 mm mm_cb mm_td mm_prev br br_cb br_td br_prev ira hv h2v db).ira_withdrawal_tax) +
      (cascade c i d0 mm mm_cb mm_td mm_prev br br_cb br_td br_prev ira hv h2v db).debt_taken +
      (cascade c i d0 mm mm_cb mm_td mm_prev br br_cb br_td br_prev ira hv h2v db).deficit = d0 := by
  simp only [cascade]
  have h1 := takeTaxedBucket_net c.cap_gains_rate d0 mm mm_cb mm_td mm_prev
  have h2 := takeTaxedBucket_net c.cap_gains_rate
    (takeTaxedBucket c.cap_gains_rate d0 mm mm_cb mm_td mm_prev).deficit br br_cb br_td br_prev
  have h3 := takeIraBucket_net c.avg_tax_rate
    (takeTaxedBucket c.cap_gains_rate
      (takeTaxedBucket c.cap_gains_rate d0 mm mm_cb mm_td mm_prev).deficit br br_cb br_td
      br_prev).deficit ira
  have h4 := (takeDebt_split i c.sell_home_years c.home2_sell_home_years hv h2v
    (takeTaxedBucket c.cap_gains_rate d0 mm mm_cb mm_td mm_prev).bal
    (takeTaxedBucket c.cap_gains_rate
      (takeTaxedBucket c.cap_gains_rate d0 mm mm_cb mm_td mm_prev).deficit br br_cb br_td
      br_prev).bal
    (takeIraBucket c.avg_tax_rate
      (takeTaxedBucket c.cap_gains_rate
        (takeTaxedBucket c.cap_gains_rate d0 mm mm_cb mm_td mm_prev).deficit br br_cb br_td
        br_prev).deficit ira).bal db
    (takeIraBucket c.avg_tax_rate
      (takeTaxedBucket c.cap_gains_rate
        (takeTaxedBucket c.cap_gains_rate d0 mm mm_cb mm_td mm_prev).deficit br br_cb br_td
        br_prev).deficit ira).deficit).1
  linarith

/-! ### Projection lemmas for the step phases -/

lemma stepAssemble_cash_flow (c : Config) (a : ℕ) (p : PreOut) (sl : SalesOut) (r : ResolveOut) :
    (stepAssemble c a p sl r).2.cash_flow = r.cash_flow := rfl

lemma stepAssemble_income (c : Config) (a : ℕ) (p : PreOut) (sl : SalesOut) (r : ResolveOut) :
    (stepAssemble c a p sl r).2.income = r.income_annual := rfl

lemma stepAssemble_row_res (c : Config) (a : ℕ) (p : PreOut) (sl : SalesOut) (r : ResolveOut) :
    (stepAssemble c a p sl r).2.money_market = r.res.money_market ∧
    (stepAssemble c a p sl r).2.money_market_cost_basis = r.res.money_market_cost_basis ∧
    (stepAssemble c a p sl r).2.money_market_tax_deferred = r.res.money_market_tax_deferred ∧
    (stepAssemble c a p sl r).2.brokerage = r.res.brokerage ∧
    (stepAssemble c a p sl r).2.brokerage_cost_basis = r.res.brokerage_cost_basis ∧
    (stepAssemble c a p sl r).2.brokerage_tax_deferred = r.res.brokerage_tax_deferred ∧
    (stepAssemble c a p sl r).2.ira = r.res.ira ∧
    (stepAssemble c a p sl r).2.mm_withdrawal = r.res.mm_withdrawal ∧
    (stepAssemble c a p sl r).2.mm_withdrawal_tax = r.res.mm_withdrawal_tax ∧
    (stepAssemble c a p sl r).2.brokerage_withdrawal = r.res.brokerage_withdrawal ∧
    (stepAssemble c a p sl r).2.brokerage_withdrawal_tax = r.res.brokerage_withdrawal_tax ∧
    (stepAssemble c a p sl r).2.ira_withdrawal = r.res.ira_withdrawal ∧
    (stepAssemble c a p sl r).2.ira_withdrawal_tax = r.res.ira_withdrawal_tax ∧
    (stepAssemble c a p sl r).2.debt_taken = r.res.debt_taken ∧
    (stepAssemble c a p sl r).2.deficit_remaining = r.res.deficit ∧
    (stepAssemble c a p sl r).2.debt_balance = r.res.debt_balance :=
  ⟨rfl, rfl, rfl, rfl, rfl, rfl, rfl, rfl, rfl, rfl, rfl, rfl, rfl, rfl, rfl, rfl⟩

lemma stepAssemble_st_row_agree (c : Config) (a : ℕ) (p : PreOut) (sl : SalesOut) (r : ResolveOut) :
    (stepAssemble c a p sl r).1.money_market = (stepAssemble c a p sl r).2.money_market ∧
    (stepAssemble c a p sl r).1.money_market_cost_basis =
      (stepAssemble c a p sl r).2.money_market_cost_basis ∧
    (stepAssemble c a p sl r).1.money_market_tax_deferred =
      (stepAssemble c a p sl r).2.money_market_tax_deferred ∧
    (stepAssemble c a p sl r).1.brokerage = (stepAssemble c a p sl r).2.brokerage ∧
    (stepAssemble c a p sl r).1.brokerage_cost_basis =
      (stepAssemble c a p sl r).2.brokerage_cost_basis ∧
    (stepAssemble c a p sl r).1.brokerage_tax_deferred =
      (stepAssemble c a p sl r).2.brokerage_tax_deferred ∧
    (stepAssemble c a p sl r).1.ira = (stepAssemble c a p sl r).2.ira :=
  ⟨rfl, rfl, rfl, rfl, rfl, rfl, rfl⟩

lemma stepResolve_res (c : Config) (i a : ℕ) (p : PreOut) (g : GrowOut) (sl : SalesOut) :
    (stepResolve c i a p g sl).res =
      resolveCashFlow c i (stepResolve c i a p g sl).cash_flow g.mm.bal g.mm.cost_basis
        g.mm.tax_deferred g.mm.prev_value sl.ss.brokerage sl.ss.brokerage_cost_basis
        sl.ss.brokerage_tax_deferred sl.ss.brokerage_prev_value g.ira1 sl.ps.home_value
        sl.ss.home_value p.debt_balance1 := rfl

lemma stepGrow_fields (c : Config) (s : St) :
    (stepGrow c s).mm =
      growBucket s.money_market s.money_market_cost_basis s.money_market_tax_deferred
        c.cash_growth ∧
    (stepGrow c s).br =
      growBucket s.brokerage s.brokerage_cost_basis s.brokerage_tax_deferred c.stock_growth ∧
    (stepGrow c s).ira1 = s.ira * (1 + c.stock_growth) :=
  ⟨rfl, rfl, rfl⟩

/-! ### Branches of the cash-flow resolution -/

lemma resolveCashFlow_neg (c : Config) (i : ℕ)
    (cf mm mm_cb mm_td mm_prev br br_cb br_td br_prev ira hv h2v db : ℚ) (h : cf < 0) :
    resolveCashFlow c i cf mm mm_cb mm_td mm_prev br br_cb br_td br_prev ira hv h2v db =
      cascade c i (-cf) mm mm_cb mm_td mm_prev br br_cb br_td br_prev ira hv h2v db := by
  rw [resolveCashFlow, if_neg (not_le.mpr h)]

lemma resolveCashFlow_nonneg (c : Config) (i : ℕ)
    (cf mm mm_cb mm_td mm_prev br br_cb br_td br_prev ira hv h2v db : ℚ) (h : 0 ≤ cf) :
    resolveCashFlow c i cf mm mm_cb mm_td mm_prev br br_cb br_td br_prev ira hv h2v db =
      { money_market := mm + cf
        money_market_cost_basis := mm_cb + cf
        money_market_tax_deferred := mm_td
        money_market_prev_value := mm_prev
        brokerage := br
        brokerage_cost_basis := br_cb
        brokerage_tax_deferred := br_td
        brokerage_prev_value := br_prev
        ira := ira
        mm_withdrawal := 0
        mm_withdrawal_tax := 0
        brokerage_withdrawal := 0
        brokerage_withdrawal_tax := 0
        ira_withdrawal := 0
        ira_withdrawal_tax := 0
        debt_taken := 0
        debt_balance := db
        deficit := 0 } := by
  rw [resolveCashFlow, if_pos h]

lemma cascade_fields (c : Config) (i : ℕ)
    (d mm mm_cb mm_td mm_prev br br_cb br_td br_prev ira hv h2v db : ℚ) :
    (cascade c i d mm mm_cb mm_td mm_prev br br_cb br_td br_prev ira hv h2v db).money_market =
      (takeTaxedBucket c.cap_gains_rate d mm mm_cb mm_td mm_prev).bal ∧
    (cascade c i d mm mm_cb mm_td mm_prev br br_cb br_td br_prev ira hv h2v db).money_market_cost_basis =
      (takeTaxedBucket c.cap_gains_rate d mm mm_cb mm_td mm_prev).cost_basis ∧
    (cascade c i d mm mm_cb mm_td mm_prev br br_cb br_td br_prev ira hv h2v db).money_market_tax_deferred =
      (takeTaxedBucket c.cap_gains_rate d mm mm_cb mm_td mm_prev).tax_deferred ∧
    (cascade c i d mm mm_cb mm_td mm_prev br br_cb br_td br_prev ira hv h2v db).brokerage =
      (takeTaxedBucket c.cap_gains_rate
        (takeTaxedBucket c.cap_gains_rate d mm mm_cb mm_td mm_prev).deficit br br_cb br_td
        br_prev).bal ∧
    (cascade c i d mm mm_cb mm_td mm_prev br br_cb br_td br_prev ira hv h2v db).brokerage_cost_basis =
      (takeTaxedBucket c.cap_gains_rate
        (takeTaxedBucket c.cap_gains_rate d mm mm_cb mm_td mm_prev).deficit br br_cb br_td
        br_prev).cost_basis ∧
    (cascade c i d mm mm_cb mm_td mm_prev br br_cb br_td br_prev ira hv h2v db).brokerage_tax_deferred =
      (takeTaxedBucket c.cap_gains_rate
        (takeTaxedBucket c.cap_gains_rate d mm mm_cb mm_td mm_prev).deficit br br_cb br_td
        br_prev).tax_deferred ∧
    (cascade c i d mm mm_cb mm_td mm_prev br br_cb br_td br_prev ira hv h2v db).ira =
      (takeIraBucket c.avg_tax_rate
        (takeTaxedBucket c.cap_gains_rate
          (takeTaxedBucket c.cap_gains_rate d mm mm_cb mm_td mm_prev).deficit br br_cb br_td
          br_prev).deficit ira).bal :=
  ⟨rfl, rfl, rfl, rfl, rfl, rfl, rfl⟩

/-! ### Claim C4 -/

lemma forall_mem_stepsFrom {c : Config} {P : Row → Prop}
    (h : ∀ (i age : ℕ) (s : St), P (step c i age s).2) :
    ∀ (n i : ℕ) (s : St), ∀ r ∈ stepsFrom c s i n, P r := by
  intro n
  induction n with
  | zero => intro i s r hr; simp [stepsFrom] at hr
  | succ n ih =>
    intro i s r hr
    rw [stepsFrom_succ] at hr
    rcases List.mem_cons.mp hr with h1 | h1
    · rw [h1]; exact h i (c.start_age + i) s
    · exact ih (i + 1) _ r h1

lemma forall_mem_run {c : Config} {P : Row → Prop}
    (h : ∀ (i age : ℕ) (s : St), P (step c i age s).2) :
    ∀ r ∈ run c, P r :=
  forall_mem_stepsFrom h (numYears c) 0 (initSt c)

lemma step_cascade_conservation (c : Config) (i age : ℕ) (s : St)
    (hneg : (step c i age s).2.cash_flow < 0)
    (hdebt : (step c i age s).2.debt_taken = 0)
    (hdef : (step c i age s).2.deficit_remaining = 0) :
    ((step c i age s).2.mm_withdrawal - (step c i age s).2.mm_withdrawal_tax) +
      ((step c i age s).2.brokerage_withdrawal - (step c i age s).2.brokerage_withdrawal_tax) +
      ((step c i age s).2.ira_withdrawal - (step c i age s).2.ira_withdrawal_tax) =
      -(step c i age s).2.cash_flow := by
  rw [step_eq] at hneg hdebt hdef ⊢
  rw [stepAssemble_cash_flow] at hneg ⊢
  rw [(stepAssemble_row_res _ _ _ _ _).2.2.2.2.2.2.2.2.2.2.2.2.2.1] at hdebt
  rw [(stepAssemble_row_res _ _ _ _ _).2.2.2.2.2.2.2.2.2.2.2.2.2.2.1] at hdef
  rw [(stepAssemble_row_res _ _ _ _ _).2.2.2.2.2.2.2.1,
    (stepAssemble_row_res _ _ _ _ _).2.2.2.2.2.2.2.2.1,
    (stepAssemble_row_res _ _ _ _ _).2.2.2.2.2.2.2.2.2.1,
    (stepAssemble_row_res _ _ _ _ _).2.2.2.2.2.2.2.2.2.2.1,
    (stepAssemble_row_res _ _ _ _ _).2.2.2.2.2.2.2.2.2.2.2.1,
    (stepAssemble_row_res _ _ _ _ _).2.2.2.2.2.2.2.2.2.2.2.2.1]
  rw [stepResolve_res, resolveCashFlow_neg _ _ _ _ _ _ _ _ _ _ _ _ _ _ _ hneg] at hdebt hdef ⊢
  have hc := cascade_conservation c i (-(stepResolve c i age (stepPre c i age s) (stepGrow c s)
      (stepSales c i (stepPre c i age s) (stepGrow c s))).cash_flow)
    (stepGrow c s).mm.bal (stepGrow c s).mm.cost_basis (stepGrow c s).mm.tax_deferred
    (stepGrow c s).mm.prev_value
    (stepSales c i (stepPre c i age s) (stepGrow c s)).ss.brokerage
    (stepSales c i (stepPre c i age s) (stepGrow c s)).ss.brokerage_cost_basis
    (stepSales c i (stepPre c i age s) (stepGrow c s)).ss.brokerage_tax_deferred
    (stepSales c i (stepPre c i age s) (stepGrow c s)).ss.brokerage_prev_value
    (stepGrow c s).ira1
    (stepSales c i (stepPre c i age s) (stepGrow c s)).ps.home_value
    (stepSales c i (stepPre c i age s) (stepGrow c s)).ss.home_value
    (stepPre c i age s).debt_balance1
  rw [hdebt, hdef] at hc
  linarith

/-- Claim C4: in any year whose deficit is fully covered by the withdrawal
cascade without taking on debt, the sum over the three buckets of the net
(after-tax) amounts freed (gross withdrawal minus withdrawal tax for money
market, brokerage and IRA) equals the year's deficit, exactly. -/
theorem claim_C4_cascade_conservation (c : Config) (r : Row) (hr : r ∈ run c)
    (hneg : r.cash_flow < 0) (hdebt : r.debt_taken = 0) (hdef : r.deficit_remaining = 0) :
    (r.mm_withdrawal - r.mm_withdrawal_tax) + (r.brokerage_withdrawal - r.brokerage_withdrawal_tax) +
      (r.ira_withdrawal - r.ira_withdrawal_tax) = -r.cash_flow := by
  revert hneg hdebt hdef
  exact @forall_mem_run c
    (fun row => row.cash_flow < 0 → row.debt_taken = 0 → row.deficit_remaining = 0 →
      (row.mm_withdrawal - row.mm_withdrawal_tax) +
        (row.brokerage_withdrawal - row.brokerage_withdrawal_tax) +
        (row.ira_withdrawal - row.ira_withdrawal_tax) = -row.cash_flow)
    (fun i age s => step_cascade_conservation c i age s) r hr

/-- Witness for claim C4 on the example scenario's first year. -/
theorem claim_C4_witness :
    ex1Row0 ∈ run exampleCfg1 ∧ ex1Row0.cash_flow < 0 ∧ ex1Row0.debt_taken = 0 ∧
    ex1Row0.deficit_remaining = 0 ∧
    (ex1Row0.mm_withdrawal - ex1Row0.mm_withdrawal_tax) +
      (ex1Row0.brokerage_withdrawal - ex1Row0.brokerage_withdrawal_tax) +
      (ex1Row0.ira_withdrawal - ex1Row0.ira_withdrawal_tax) = -ex1Row0.cash_flow := by
  have hm : ex1Row0 ∈ run exampleCfg1 := by
    rw [run_ex1]; exact List.mem_cons_self _ _
  have h1 : ex1Row0.cash_flow < 0 := by norm_num [ex1Row0]
  have h2 : ex1Row0.debt_taken = 0 := by norm_num [ex1Row0]
  have h3 : ex1Row0.deficit_remaining = 0 := by norm_num [ex1Row0]
  exact ⟨hm, h1, h2, h3, claim_C4_cascade_conservation exampleCfg1 ex1Row0 hm h1 h2 h3⟩


/-! ### Zero-state preservation of the buckets -/

lemma growBucket_zero (b cb td rate : ℚ) (h : b < 1/100) :
    growBucket b cb td rate = ⟨0, 0, 0, 0, 0⟩ := by
  rw [growBucket, if_pos h]

lemma takeTaxedBucket_zero_bal (g d cb td p : ℚ) :
    takeTaxedBucket g d 0 cb td p = ⟨0, cb, td, p, 0, 0, d⟩ := by
  rw [takeTaxedBucket, if_neg]
  simp

lemma takeIraBucket_zero_bal (t d : ℚ) : takeIraBucket t d 0 = ⟨0, 0, 0, d⟩ := by
  rw [takeIraBucket, if_neg]
  simp

lemma primarySale_false (br cb td prev hv lq mb : ℚ) (mo : ℤ) :
    primarySale false br cb td prev hv lq mb mo = ⟨br, cb, td, prev, hv, lq, mb, mo⟩ := by
  rw [primarySale]
  simp

lemma secondSale_false (br cb td prev hv lq mb : ℚ) (mo : ℤ) :
    secondSale false br cb td prev hv lq mb mo = ⟨br, cb, td, prev, hv, lq, mb, mo⟩ := by
  rw [secondSale]
  simp

lemma stepSales_ps (c : Config) (i : ℕ) (p : PreOut) (g : GrowOut) :
    (stepSales c i p g).ps =
      primarySale (decide (i = c.sell_home_years)) g.br.bal g.br.cost_basis g.br.tax_deferred
        g.br.prev_value p.home_value1
        (liquidValue p.home_value1 c.sale_cost_pct c.tax_deductions c.cap_gains_rate
          p.m1.new_balance) p.m1.new_balance p.m1.new_months := rfl

lemma stepSales_ss (c : Config) (i : ℕ) (p : PreOut) (g : GrowOut) :
    (stepSales c i p g).ss =
      secondSale (decide (i = c.home2_sell_home_years)) (stepSales c i p g).ps.brokerage
        (stepSales c i p g).ps.brokerage_cost_basis (stepSales c i p g).ps.brokerage_tax_deferred
        (stepSales c i p g).ps.brokerage_prev_value p.home2_value1
        (liquidValue p.home2_value1 c.home2_sale_cost_pct c.home2_tax_deductions c.cap_gains_rate
          p.m2.new_balance) p.m2.new_balance p.m2.new_months := rfl

lemma stepSales_flag1 (c : Config) (i : ℕ) (p : PreOut) (g : GrowOut) :
    (stepSales c i p g).home_sale_this_year = decide (i = c.sell_home_years) := rfl

lemma stepSales_flag2 (c : Config) (i : ℕ) (p : PreOut) (g : GrowOut) :
    (stepSales c i p g).home2_sale_this_year = decide (i = c.home2_sell_home_years) := rfl

lemma arow_mm (c : Config) (a : ℕ) (p : PreOut) (sl : SalesOut) (r : ResolveOut) :
    (stepAssemble c a p sl r).2.money_market = r.res.money_market := rfl

lemma arow_mm_cb (c : Config) (a : ℕ) (p : PreOut) (sl : SalesOut) (r : ResolveOut) :
    (stepAssemble c a p sl r).2.money_market_cost_basis = r.res.money_market_cost_basis := rfl

lemma arow_mm_td (c : Config) (a : ℕ) (p : PreOut) (sl : SalesOut) (r : ResolveOut) :
    (stepAssemble c a p sl r).2.money_market_tax_deferred = r.res.money_market_tax_deferred := rfl

lemma arow_br (c : Config) (a : ℕ) (p : PreOut) (sl : SalesOut) (r : ResolveOut) :
    (stepAssemble c a p sl r).2.brokerage = r.res.brokerage := rfl

lemma arow_br_cb (c : Config) (a : ℕ) (p : PreOut) (sl : SalesOut) (r : ResolveOut) :
    (stepAssemble c a p sl r).2.brokerage_cost_basis = r.res.brokerage_cost_basis := rfl

lemma arow_br_td (c : Config) (a : ℕ) (p : PreOut) (sl : SalesOut) (r : ResolveOut) :
    (stepAssemble c a p sl r).2.brokerage_tax_deferred = r.res.brokerage_tax_deferred := rfl

lemma arow_ira (c : Config) (a : ℕ) (p : PreOut) (sl : SalesOut) (r : ResolveOut) :
    (stepAssemble c a p sl r).2.ira = r.res.ira := rfl

lemma arow_sale1 (c : Config) (a : ℕ) (p : PreOut) (sl : SalesOut) (r : ResolveOut) :
    (stepAssemble c a p sl r).2.home_sale_this_year = sl.home_sale_this_year := rfl

lemma arow_sale2 (c : Config) (a : ℕ) (p : PreOut) (sl : SalesOut) (r : ResolveOut) :
    (stepAssemble c a p sl r).2.home2_sale_this_year = sl.home2_sale_this_year := rfl

lemma ast_mm (c : Config) (a : ℕ) (p : PreOut) (sl : SalesOut) (r : ResolveOut) :
    (stepAssemble c a p sl r).1.money_market = r.res.money_market := rfl

lemma ast_mm_cb (c : Config) (a : ℕ) (p : PreOut) (sl : SalesOut) (r : ResolveOut) :
    (stepAssemble c a p sl r).1.money_market_cost_basis = r.res.money_market_cost_basis := rfl

lemma ast_mm_td (c : Config) (a : ℕ) (p : PreOut) (sl : SalesOut) (r : ResolveOut) :
    (stepAssemble c a p sl r).1.money_market_tax_deferred = r.res.money_market_tax_deferred := rfl

lemma ast_br (c : Config) (a : ℕ) (p : PreOut) (sl : SalesOut) (r : ResolveOut) :
    (stepAssemble c a p sl r).1.brokerage = r.res.brokerage := rfl

lemma ast_br_cb (c : Config) (a : ℕ) (p : PreOut) (sl : SalesOut) (r : ResolveOut) :
    (stepAssemble c a p sl r).1.brokerage_cost_basis = r.res.brokerage_cost_basis := rfl

lemma ast_br_td (c : Config) (a : ℕ) (p : PreOut) (sl : SalesOut) (r : ResolveOut) :
    (stepAssemble c a p sl r).1.brokerage_tax_deferred = r.res.brokerage_tax_deferred := rfl

lemma ast_ira (c : Config) (a : ℕ) (p : PreOut) (sl : SalesOut) (r : ResolveOut) :
    (stepAssemble c a p sl r).1.ira = r.res.ira := rfl

/-- A year in which the money market starts (and therefore ends its growth
phase) in the fully-zero depleted state and ends with a deficit leaves it in
the fully-zero depleted state: no inflow exists besides a surplus. -/
lemma step_mm_preserve (c : Config) (i age : ℕ) (s : St)
    (h1 : s.money_market = 0) (h2 : s.money_market_cost_basis = 0)
    (h3 : s.money_market_tax_deferred = 0)
    (hneg : (step c i age s).2.cash_flow < 0) :
    (step c i age s).2.money_market = 0 ∧
    (step c i age s).2.money_market_cost_basis = 0 ∧
    (step c i age s).2.money_market_tax_deferred = 0 ∧
    (step c i age s).1.money_market = 0 ∧
    (step c i age s).1.money_market_cost_basis = 0 ∧
    (step c i age s).1.money_market_tax_deferred = 0 := by
  have hg : (stepGrow c s).mm = ⟨0, 0, 0, 0, 0⟩ := by
    rw [(stepGrow_fields c s).1, h1, h2, h3, growBucket_zero _ _ _ _ (by norm_num)]
  rw [step_eq] at hneg ⊢
  rw [stepAssemble_cash_flow] at hneg
  simp only [arow_mm, arow_mm_cb, arow_mm_td, ast_mm, ast_mm_cb, ast_mm_td, stepResolve_res]
  rw [resolveCashFlow_neg _ _ _ _ _ _ _ _ _ _ _ _ _ _ _ hneg]
  simp only [hg]
  rw [(cascade_fields _ _ _ _ _ _ _ _ _ _ _ _ _ _ _).1,
    (cascade_fields _ _ _ _ _ _ _ _ _ _ _ _ _ _ _).2.1,
    (cascade_fields _ _ _ _ _ _ _ _ _ _ _ _ _ _ _).2.2.1]
  norm_num [takeTaxedBucket_zero_bal]

/-- A year with no sale event leaves a fully-zero brokerage in the fully-zero
depleted state, for any sign of the cash flow: surpluses go to the money
market, not the brokerage. -/
lemma step_br_preserve (c : Config) (i age : ℕ) (s : St)
    (h1 : s.brokerage = 0) (h2 : s.brokerage_cost_basis = 0)
    (h3 : s.brokerage_tax_deferred = 0)
    (hf1 : (step c i age s).2.home_sale_this_year = false)
    (hf2 : (step c i age s).2.home2_sale_this_year = false) :
    (step c i age s).2.brokerage = 0 ∧
    (step c i age s).2.brokerage_cost_basis = 0 ∧
    (step c i age s).2.brokerage_tax_deferred = 0 ∧
    (step c i age s).1.brokerage = 0 ∧
    (step c i age s).1.brokerage_cost_basis = 0 ∧
    (step c i age s).1.brokerage_tax_deferred = 0 := by
  have hg : (stepGrow c s).br = ⟨0, 0, 0, 0, 0⟩ := by
    rw [(stepGrow_fields c s).2.1, h1, h2, h3, growBucket_zero _ _ _ _ (by norm_num)]
  rw [step_eq] at hf1 hf2 ⊢
  rw [arow_sale1, stepSales_flag1] at hf1
  rw [arow_sale2, stepSales_flag2] at hf2
  have hss : (stepSales c i (stepPre c i age s) (stepGrow c s)).ss.brokerage = 0 ∧
      (stepSales c i (stepPre c i age s) (stepGrow c s)).ss.brokerage_cost_basis = 0 ∧
      (stepSales c i (stepPre c i age s) (stepGrow c s)).ss.brokerage_tax_deferred = 0 := by
    rw [stepSales_ss, stepSales_ps, hf1, hf2, hg, primarySale_false]
    simp [secondSale_false]
  simp only [arow_br, arow_br_cb, arow_br_td, ast_br, ast_br_cb, ast_br_td, stepResolve_res]
  rw [hss.1, hss.2.1, hss.2.2]
  rcases le_or_lt 0 (stepResolve c i age (stepPre c i age s) (stepGrow c s)
      (stepSales c i (stepPre c i age s) (stepGrow c s))).cash_flow with hcf | hcf
  · rw [resolveCashFlow_nonneg _ _ _ _ _ _ _ _ _ _ _ _ _ _ _ hcf]
    simp
  · rw [resolveCashFlow_neg _ _ _ _ _ _ _ _ _ _ _ _ _ _ _ hcf]
    rw [(cascade_fields _ _ _ _ _ _ _ _ _ _ _ _ _ _ _).2.2.2.1,
      (cascade_fields _ _ _ _ _ _ _ _ _ _ _ _ _ _ _).2.2.2.2.1,
      (cascade_fields _ _ _ _ _ _ _ _ _ _ _ _ _ _ _).2.2.2.2.2.1]
    norm_num [takeTaxedBucket_zero_bal]

/-- Nothing ever flows into the IRA: a zero IRA stays zero. -/
lemma step_ira_preserve (c : Config) (i age : ℕ) (s : St) (h1 : s.ira = 0) :
    (step c i age s).2.ira = 0 ∧ (step c i age s).1.ira = 0 := by
  have hg : (stepGrow c s).ira1 = 0 := by
    rw [(stepGrow_fields c s).2.2, h1, zero_mul]
  rw [step_eq]
  simp only [arow_ira, ast_ira, stepResolve_res, hg]
  rcases le_or_lt 0 (stepResolve c i age (stepPre c i age s) (stepGrow c s)
      (stepSales c i (stepPre c i age s) (stepGrow c s))).cash_flow with hcf | hcf
  · rw [resolveCashFlow_nonneg _ _ _ _ _ _ _ _ _ _ _ _ _ _ _ hcf]
    simp
  · rw [resolveCashFlow_neg _ _ _ _ _ _ _ _ _ _ _ _ _ _ _ hcf]
    rw [(cascade_fields _ _ _ _ _ _ _ _ _ _ _ _ _ _ _).2.2.2.2.2.2]
    norm_num [takeIraBucket_zero_bal]


/-! ### The depletion lock over the whole projection -/

lemma stateAfter_succ0 (c : Config) (j : ℕ) :
    stateAfter c (j + 1) (initSt c) 0 =
      (step c j (c.start_age + j) (stateAfter c j (initSt c) 0)).1 := by
  have h := stateAfter_succ c j (initSt c) 0
  rwa [Nat.zero_add] at h

lemma step_agree_mm (c : Config) (i age : ℕ) (s : St) :
    (step c i age s).1.money_market = (step c i age s).2.money_market ∧
    (step c i age s).1.money_market_cost_basis = (step c i age s).2.money_market_cost_basis ∧
    (step c i age s).1.money_market_tax_deferred = (step c i age s).2.money_market_tax_deferred ∧
    (step c i age s).1.brokerage = (step c i age s).2.brokerage ∧
    (step c i age s).1.brokerage_cost_basis = (step c i age s).2.brokerage_cost_basis ∧
    (step c i age s).1.brokerage_tax_deferred = (step c i age s).2.brokerage_tax_deferred ∧
    (step c i age s).1.ira = (step c i age s).2.ira :=
  ⟨rfl, rfl, rfl, rfl, rfl, rfl, rfl⟩

lemma mm_lock_one (c : Config) (j : ℕ) (hlen : j < (run c).length)
    (h1 : (stateAfter c j (initSt c) 0).money_market = 0)
    (h2 : (stateAfter c j (initSt c) 0).money_market_cost_basis = 0)
    (h3 : (stateAfter c j (initSt c) 0).money_market_tax_deferred = 0)
    (hcf : ((run c).getD j default).cash_flow < 0) :
    (((run c).getD j default).money_market = 0 ∧
     ((run c).getD j default).money_market_cost_basis = 0 ∧
     ((run c).getD j default).money_market_tax_deferred = 0) ∧
    ((stateAfter c (j + 1) (initSt c) 0).money_market = 0 ∧
     (stateAfter c (j + 1) (initSt c) 0).money_market_cost_basis = 0 ∧
     (stateAfter c (j + 1) (initSt c) 0).money_market_tax_deferred = 0) := by
  rw [run_getD c j hlen] at hcf ⊢
  rw [stateAfter_succ0]
  have h := step_mm_preserve c j (c.start_age + j) (stateAfter c j (initSt c) 0) h1 h2 h3 hcf
  exact ⟨⟨h.1, h.2.1, h.2.2.1⟩, ⟨h.2.2.2.1, h.2.2.2.2.1, h.2.2.2.2.2⟩⟩

lemma mm_lock_chain (c : Config) (k : ℕ)
    (h1 : (stateAfter c (k + 1) (initSt c) 0).money_market = 0)
    (h2 : (stateAfter c (k + 1) (initSt c) 0).money_market_cost_basis = 0)
    (h3 : (stateAfter c (k + 1) (initSt c) 0).money_market_tax_deferred = 0) :
    ∀ (d j : ℕ), j = k + 1 + d → j < (run c).length →
      (∀ l, k < l → l ≤ j → ((run c).getD l default).cash_flow < 0) →
      (((run c).getD j default).money_market = 0 ∧
       ((run c).getD j default).money_market_cost_basis = 0 ∧
       ((run c).getD j default).money_market_tax_deferred = 0) ∧
      ((stateAfter c (j + 1) (initSt c) 0).money_market = 0 ∧
       (stateAfter c (j + 1) (initSt c) 0).money_market_cost_basis = 0 ∧
       (stateAfter c (j + 1) (initSt c) 0).money_market_tax_deferred = 0) := by
  intro d
  induction d with
  | zero =>
    intro j hj hlen hcf
    have hj' : j = k + 1 := by omega
    subst hj'
    exact mm_lock_one c (k + 1) hlen h1 h2 h3 (hcf (k + 1) (by omega) (le_refl _))
  | succ d ih =>
    intro j hj hlen hcf
    have hj' : j = (k + 1 + d) + 1 := by omega
    have hprev := ih (k + 1 + d) rfl (by omega)
      (fun l hl hl2 => hcf l hl (by omega))
    subst hj'
    exact mm_lock_one c (k + 1 + d + 1) hlen hprev.2.1 hprev.2.2.1 hprev.2.2.2
      (hcf (k + 1 + d + 1) (by omega) (le_refl _))

lemma br_lock_one (c : Config) (j : ℕ) (hlen : j < (run c).length)
    (h1 : (stateAfter c j (initSt c) 0).brokerage = 0)
    (h2 : (stateAfter c j (initSt c) 0).brokerage_cost_basis = 0)
    (h3 : (stateAfter c j (initSt c) 0).brokerage_tax_deferred = 0)
    (hf1 : ((run c).getD j default).home_sale_this_year = false)
    (hf2 : ((run c).getD j default).home2_sale_this_year = false) :
    (((run c).getD j default).brokerage = 0 ∧
     ((run c).getD j default).brokerage_cost_basis = 0 ∧
     ((run c).getD j default).brokerage_tax_deferred = 0) ∧
    ((stateAfter c (j + 1) (initSt c) 0).brokerage = 0 ∧
     (stateAfter c (j + 1) (initSt c) 0).brokerage_cost_basis = 0 ∧
     (stateAfter c (j + 1) (initSt c) 0).brokerage_tax_deferred = 0) := by
  rw [run_getD c j hlen] at hf1 hf2 ⊢
  rw [stateAfter_succ0]
  have h := step_br_preserve c j (c.start_age + j) (stateAfter c j (initSt c) 0) h1 h2 h3 hf1 hf2
  exact ⟨⟨h.1, h.2.1, h.2.2.1⟩, ⟨h.2.2.2.1, h.2.2.2.2.1, h.2.2.2.2.2⟩⟩

lemma br_lock_chain (c : Config) (k : ℕ)
    (h1 : (stateAfter c (k + 1) (initSt c) 0).brokerage = 0)
    (h2 : (stateAfter c (k + 1) (initSt c) 0).brokerage_cost_basis = 0)
    (h3 : (stateAfter c (k + 1) (initSt c) 0).brokerage_tax_deferred = 0) :
    ∀ (d j : ℕ), j = k + 1 + d → j < (run c).length →
      (∀ l, k < l → l ≤ j → ((run c).getD l default).home_sale_this_year = false ∧
        ((run c).getD l default).home2_sale_this_year = false) →
      (((run c).getD j default).brokerage = 0 ∧
       ((run c).getD j default).brokerage_cost_basis = 0 ∧
       ((run c).getD j default).brokerage_tax_deferred = 0) ∧
      ((stateAfter c (j + 1) (initSt c) 0).brokerage = 0 ∧
       (stateAfter c (j + 1) (initSt c) 0).brokerage_cost_basis = 0 ∧
       (stateAfter c (j + 1) (initSt c) 0).brokerage_tax_deferred = 0) := by
  intro d
  induction d with
  | zero =>
    intro j hj hlen hfl
    have hj' : j = k + 1 := by omega
    subst hj'
    exact br_lock_one c (k + 1) hlen h1 h2 h3
      (hfl (k + 1) (by omega) (le_refl _)).1 (hfl (k + 1) (by omega) (le_refl _)).2
  | succ d ih =>
    intro j hj hlen hfl
    have hj' : j = (k + 1 + d) + 1 := by omega
    have hprev := ih (k + 1 + d) rfl (by omega)
      (fun l hl hl2 => hfl l hl (by omega))
    subst hj'
    exact br_lock_one c (k + 1 + d + 1) hlen hprev.2.1 hprev.2.2.1 hprev.2.2.2
      (hfl (k + 1 + d + 1) (by omega) (le_refl _)).1
      (hfl (k + 1 + d + 1) (by omega) (le_refl _)).2

lemma ira_lock_one (c : Config) (j : ℕ) (hlen : j < (run c).length)
    (h1 : (stateAfter c j (initSt c) 0).ira = 0) :
    ((run c).getD j default).ira = 0 ∧ (stateAfter c (j + 1) (initSt c) 0).ira = 0 := by
  rw [run_getD c j hlen]
  rw [stateAfter_succ0]
  exact step_ira_preserve c j (c.start_age + j) (stateAfter c j (initSt c) 0) h1

lemma ira_lock_chain (c : Config) (k : ℕ)
    (h1 : (stateAfter c (k + 1) (initSt c) 0).ira = 0) :
    ∀ (d j : ℕ), j = k + 1 + d → j < (run c).length →
      ((run c).getD j default).ira = 0 ∧ (stateAfter c (j + 1) (initSt c) 0).ira = 0 := by
  intro d
  induction d with
  | zero =>
    intro j hj hlen
    have hj' : j = k + 1 := by omega
    subst hj'
    exact ira_lock_one c (k + 1) hlen h1
  | succ d ih =>
    intro j hj hlen
    have hj' : j = (k + 1 + d) + 1 := by omega
    have hprev := ih (k + 1 + d) rfl (by omega)
    subst hj'
    exact ira_lock_one c (k + 1 + d + 1) hlen hprev.2

/-! ### Claim C3 -/

/-- Claim C3: once a bucket has been snapped to the depleted state (balance
exactly zero with its cost-basis and tax-deferred tracking fields zero) in
year k, it is still exactly zero with zero tracking fields in every later
year j, unless an inflow into that bucket occurs in one of the intervening
years: a surplus contribution for the money market (so it stays zero as long
as every intervening cash flow is negative), a property-sale transfer for the
brokerage (so it stays zero as long as no sale event fires in between), and
no inflow whatsoever exists for the IRA (so it stays zero unconditionally).
No other transition from depleted to funded exists. -/
theorem claim_C3_depletion_lock (c : Config) (k j : ℕ) (hkj : k < j)
    (hj : j < (run c).length) :
    (((run c).getD k default).money_market = 0 →
      ((run c).getD k default).money_market_cost_basis = 0 →
      ((run c).getD k default).money_market_tax_deferred = 0 →
      (∀ l, k < l → l ≤ j → ((run c).getD l default).cash_flow < 0) →
      ((run c).getD j default).money_market = 0 ∧
      ((run c).getD j default).money_market_cost_basis = 0 ∧
      ((run c).getD j default).money_market_tax_deferred = 0) ∧
    (((run c).getD k default).brokerage = 0 →
      ((run c).getD k default).brokerage_cost_basis = 0 →
      ((run c).getD k default).brokerage_tax_deferred = 0 →
      (∀ l, k < l → l ≤ j → ((run c).getD l default).home_sale_this_year = false ∧
        ((run c).getD l default).home2_sale_this_year = false) →
      ((run c).getD j default).brokerage = 0 ∧
      ((run c).getD j default).brokerage_cost_basis = 0 ∧
      ((run c).getD j default).brokerage_tax_deferred = 0) ∧
    (((run c).getD k default).ira = 0 → ((run c).getD j default).ira = 0) := by
  have hk : k < (run c).length := lt_trans hkj hj
  refine ⟨?_, ?_, ?_⟩
  · intro h1 h2 h3 hcf
    rw [run_getD c k hk] at h1 h2 h3
    have hs1 : (stateAfter c (k + 1) (initSt c) 0).money_market = 0 := by
      rw [stateAfter_succ0, (step_agree_mm _ _ _ _).1]; exact h1
    have hs2 : (stateAfter c (k + 1) (initSt c) 0).money_market_cost_basis = 0 := by
      rw [stateAfter_succ0, (step_agree_mm _ _ _ _).2.1]; exact h2
    have hs3 : (stateAfter c (k + 1) (initSt c) 0).money_market_tax_deferred = 0 := by
      rw [stateAfter_succ0, (step_agree_mm _ _ _ _).2.2.1]; exact h3
    exact (mm_lock_chain c k hs1 hs2 hs3 (j - (k + 1)) j (by omega) hj hcf).1
  · intro h1 h2 h3 hfl
    rw [run_getD c k hk] at h1 h2 h3
    have hs1 : (stateAfter c (k + 1) (initSt c) 0).brokerage = 0 := by
      rw [stateAfter_succ0, (step_agree_mm _ _ _ _).2.2.2.1]; exact h1
    have hs2 : (stateAfter c (k + 1) (initSt c) 0).brokerage_cost_basis = 0 := by
      rw [stateAfter_succ0, (step_agree_mm _ _ _ _).2.2.2.2.1]; exact h2
    have hs3 : (stateAfter c (k + 1) (initSt c) 0).brokerage_tax_deferred = 0 := by
      rw [stateAfter_succ0, (step_agree_mm _ _ _ _).2.2.2.2.2.1]; exact h3
    exact (br_lock_chain c k hs1 hs2 hs3 (j - (k + 1)) j (by omega) hj hfl).1
  · intro h1
    rw [run_getD c k hk] at h1
    have hs1 : (stateAfter c (k + 1) (initSt c) 0).ira = 0 := by
      rw [stateAfter_succ0, (step_agree_mm _ _ _ _).2.2.2.2.2.2]; exact h1
    exact (ira_lock_chain c k hs1 (j - (k + 1)) j (by omega) hj).1

/-- Witness for claim C3 on the example scenario, from year 0 to year 1. -/
theorem claim_C3_witness :
    0 < 1 ∧ 1 < (run exampleCfg1).length ∧
    ((((run exampleCfg1).getD 0 default).money_market = 0 →
      ((run exampleCfg1).getD 0 default).money_market_cost_basis = 0 →
      ((run exampleCfg1).getD 0 default).money_market_tax_deferred = 0 →
      (∀ l, 0 < l → l ≤ 1 → ((run exampleCfg1).getD l default).cash_flow < 0) →
      ((run exampleCfg1).getD 1 default).money_market = 0 ∧
      ((run exampleCfg1).getD 1 default).money_market_cost_basis = 0 ∧
      ((run exampleCfg1).getD 1 default).money_market_tax_deferred = 0) ∧
    (((run exampleCfg1).getD 0 default).brokerage = 0 →
      ((run exampleCfg1).getD 0 default).brokerage_cost_basis = 0 →
      ((run exampleCfg1).getD 0 default).brokerage_tax_deferred = 0 →
      (∀ l, 0 < l → l ≤ 1 → ((run exampleCfg1).getD l default).home_sale_this_year = false ∧
        ((run exampleCfg1).getD l default).home2_sale_this_year = false) →
      ((run exampleCfg1).getD 1 default).brokerage = 0 ∧
      ((run exampleCfg1).getD 1 default).brokerage_cost_basis = 0 ∧
      ((run exampleCfg1).getD 1 default).brokerage_tax_deferred = 0) ∧
    (((run exampleCfg1).getD 0 default).ira = 0 → ((run exampleCfg1).getD 1 default).ira = 0)) := by
  have hlen : 1 < (run exampleCfg1).length := by rw [run_ex1]; norm_num
  exact ⟨Nat.zero_lt_one, hlen, claim_C3_depletion_lock exampleCfg1 0 1 Nat.zero_lt_one hlen⟩


/-! ### Home sale irreversibility machinery -/

lemma calculate_annual_balance_nonneg (p mp mr : ℚ) (m : ℤ) :
    0 ≤ (calculate_annual_mortgage_amortization p mp mr m).2.2 := by
  rw [calculate_annual_mortgage_amortization]
  split_ifs <;> simp

lemma serviceMortgage_balance_nonneg (bal : ℚ) (months : ℤ) (pay rate tax : ℚ)
    (h : 0 ≤ bal) : 0 ≤ (serviceMortgage bal months pay rate tax).new_balance := by
  simp only [serviceMortgage]
  split_ifs <;> simp [calculate_annual_balance_nonneg, h]

lemma stepPre_home_value1 (c : Config) (i a : ℕ) (s : St) :
    (stepPre c i a s).home_value1 = s.home_value * (1 + c.home_growth) := rfl

lemma stepPre_home2_value1 (c : Config) (i a : ℕ) (s : St) :
    (stepPre c i a s).home2_value1 = s.home2_value * (1 + c.home2_growth) := rfl

lemma stepPre_m1 (c : Config) (i a : ℕ) (s : St) :
    (stepPre c i a s).m1 =
      if s.mortgage_balance_current > 0 ∧ i < c.sell_home_years then
        serviceMortgage s.mortgage_balance_current s.mortgage_remaining_months
          c.monthly_mortgage_payment c.monthly_mortgage_rate c.avg_tax_rate
      else noServiceMortgage s.mortgage_balance_current s.mortgage_remaining_months := rfl

lemma stepPre_m2 (c : Config) (i a : ℕ) (s : St) :
    (stepPre c i a s).m2 =
      if s.home2_mortgage_balance_current > 0 ∧ i < c.home2_sell_home_years then
        serviceMortgage s.home2_mortgage_balance_current s.home2_mortgage_remaining_months
          c.home2_monthly_mortgage_payment c.home2_monthly_mortgage_rate c.avg_tax_rate
      else noServiceMortgage s.home2_mortgage_balance_current s.home2_mortgage_remaining_months := rfl

lemma m1_balance_nonneg (c : Config) (i a : ℕ) (s : St) (h : 0 ≤ s.mortgage_balance_current) :
    0 ≤ (stepPre c i a s).m1.new_balance := by
  rw [stepPre_m1]
  split_ifs
  · exact serviceMortgage_balance_nonneg _ _ _ _ _ h
  · exact h

lemma m2_balance_nonneg (c : Config) (i a : ℕ) (s : St)
    (h : 0 ≤ s.home2_mortgage_balance_current) : 0 ≤ (stepPre c i a s).m2.new_balance := by
  rw [stepPre_m2]
  split_ifs
  · exact serviceMortgage_balance_nonneg _ _ _ _ _ h
  · exact h

lemma primarySale_true (br cb td prev hv lq mb : ℚ) (mo : ℤ) :
    primarySale true br cb td prev hv lq mb mo =
      ⟨br + lq, lq, 0, br + lq, 0, 0, if mb > 0 then 0 else mb, if mb > 0 then 0 else mo⟩ := by
  rw [primarySale]
  simp

lemma secondSale_true (br cb td prev hv lq mb : ℚ) (mo : ℤ) :
    secondSale true br cb td prev hv lq mb mo =
      ⟨br + lq, cb + lq, td, br + lq, 0, 0, if mb > 0 then 0 else mb, if mb > 0 then 0 else mo⟩ := by
  rw [secondSale]
  simp

lemma arow_home_value (c : Config) (a : ℕ) (p : PreOut) (sl : SalesOut) (r : ResolveOut) :
    (stepAssemble c a p sl r).2.home_value = sl.ps.home_value := rfl

lemma arow_mortgage (c : Config) (a : ℕ) (p : PreOut) (sl : SalesOut) (r : ResolveOut) :
    (stepAssemble c a p sl r).2.mortgage_balance = sl.ps.mortgage_balance := rfl

lemma arow_home2_value (c : Config) (a : ℕ) (p : PreOut) (sl : SalesOut) (r : ResolveOut) :
    (stepAssemble c a p sl r).2.home2_value = sl.ss.home_value := rfl

lemma arow_home2_mortgage (c : Config) (a : ℕ) (p : PreOut) (sl : SalesOut) (r : ResolveOut) :
    (stepAssemble c a p sl r).2.home2_mortgage_balance = sl.ss.mortgage_balance := rfl

lemma arow_proceeds1 (c : Config) (a : ℕ) (p : PreOut) (sl : SalesOut) (r : ResolveOut) :
    (stepAssemble c a p sl r).2.home_sale_proceeds =
      if sl.home_sale_this_year then sl.liquid_home_value0 else 0 := rfl

lemma arow_proceeds2 (c : Config) (a : ℕ) (p : PreOut) (sl : SalesOut) (r : ResolveOut) :
    (stepAssemble c a p sl r).2.home2_sale_proceeds =
      if sl.home2_sale_this_year then sl.home2_liquid_value0 else 0 := rfl

lemma ast_home_value (c : Config) (a : ℕ) (p : PreOut) (sl : SalesOut) (r : ResolveOut) :
    (stepAssemble c a p sl r).1.home_value = sl.ps.home_value := rfl

lemma ast_mortgage (c : Config) (a : ℕ) (p : PreOut) (sl : SalesOut) (r : ResolveOut) :
    (stepAssemble c a p sl r).1.mortgage_balance_current = sl.ps.mortgage_balance := rfl

lemma ast_home2_value (c : Config) (a : ℕ) (p : PreOut) (sl : SalesOut) (r : ResolveOut) :
    (stepAssemble c a p sl r).1.home2_value = sl.ss.home_value := rfl

lemma ast_home2_mortgage (c : Config) (a : ℕ) (p : PreOut) (sl : SalesOut) (r : ResolveOut) :
    (stepAssemble c a p sl r).1.home2_mortgage_balance_current = sl.ss.mortgage_balance := rfl

/-- On the scheduled sale year the primary home's raw value and mortgage are
forced to zero, in the row and in the carried state. -/
lemma step_home_sale_zero (c : Config) (i a : ℕ) (s : St)
    (hmb : 0 ≤ s.mortgage_balance_current) (hi : i = c.sell_home_years) :
    (step c i a s).2.home_value = 0 ∧ (step c i a s).2.mortgage_balance = 0 ∧
    (step c i a s).1.home_value = 0 ∧ (step c i a s).1.mortgage_balance_current = 0 := by
  have hmb1 : 0 ≤ (stepPre c i a s).m1.new_balance := m1_balance_nonneg c i a s hmb
  have hdec : decide (i = c.sell_home_years) = true := by simp [hi]
  have hmbz : (if (stepPre c i a s).m1.new_balance > 0 then (0:ℚ)
      else (stepPre c i a s).m1.new_balance) = 0 := by
    split_ifs with h
    · rfl
    · linarith
  rw [step_eq]
  simp only [arow_home_value, arow_mortgage, ast_home_value, ast_mortgage, stepSales_ps, hdec,
    primarySale_true, hmbz]
  exact ⟨trivial, trivial, trivial, trivial⟩

/-- After the primary home has been zeroed it stays zeroed: zero value grows
to zero, a zero mortgage is never serviced, and a (vacuous) repeat of the
sale event keeps both at zero. -/
lemma step_home_zero_preserve (c : Config) (i a : ℕ) (s : St)
    (h1 : s.home_value = 0) (h2 : s.mortgage_balance_current = 0) :
    (step c i a s).2.home_value = 0 ∧ (step c i a s).2.mortgage_balance = 0 ∧
    (step c i a s).1.home_value = 0 ∧ (step c i a s).1.mortgage_balance_current = 0 := by
  have hv1 : (stepPre c i a s).home_value1 = 0 := by
    rw [stepPre_home_value1, h1, zero_mul]
  have hm1 : (stepPre c i a s).m1.new_balance = 0 := by
    rw [stepPre_m1, if_neg]
    · exact h2
    · rw [h2]; simp
  rw [step_eq]
  simp only [arow_home_value, arow_mortgage, ast_home_value, ast_mortgage, stepSales_ps]
  cases hdec : decide (i = c.sell_home_years) with
  | false =>
    simp only [primarySale_false, hv1, hm1]
    exact ⟨trivial, trivial, trivial, trivial⟩
  | true =>
    simp only [primarySale_true, hm1]
    norm_num

/-- The primary-home mortgage balance never becomes negative. -/
lemma step_mb_nonneg (c : Config) (i a : ℕ) (s : St) (h : 0 ≤ s.mortgage_balance_current) :
    0 ≤ (step c i a s).1.mortgage_balance_current := by
  have hmb1 : 0 ≤ (stepPre c i a s).m1.new_balance := m1_balance_nonneg c i a s h
  rw [step_eq]
  simp only [ast_mortgage, stepSales_ps]
  cases hdec : decide (i = c.sell_home_years) with
  | false => simpa [primarySale_false] using hmb1
  | true =>
    simp only [primarySale_true]
    split_ifs
    · exact le_refl 0
    · exact hmb1

lemma step_home2_sale_zero (c : Config) (i a : ℕ) (s : St)
    (hmb : 0 ≤ s.home2_mortgage_balance_current) (hi : i = c.home2_sell_home_years) :
    (step c i a s).2.home2_value = 0 ∧ (step c i a s).2.home2_mortgage_balance = 0 ∧
    (step c i a s).1.home2_value = 0 ∧ (step c i a s).1.home2_mortgage_balance_current = 0 := by
  have hmb1 : 0 ≤ (stepPre c i a s).m2.new_balance := m2_balance_nonneg c i a s hmb
  have hdec : decide (i = c.home2_sell_home_years) = true := by simp [hi]
  have hmbz : (if (stepPre c i a s).m2.new_balance > 0 then (0:ℚ)
      else (stepPre c i a s).m2.new_balance) = 0 := by
    split_ifs with h
    · rfl
    · linarith
  rw [step_eq]
  simp only [arow_home2_value, arow_home2_mortgage, ast_home2_value, ast_home2_mortgage,
    stepSales_ss, hdec, secondSale_true, hmbz]
  exact ⟨trivial, trivial, trivial, trivial⟩

lemma step_home2_zero_preserve (c : Config) (i a : ℕ) (s : St)
    (h1 : s.home2_value = 0) (h2 : s.home2_mortgage_balance_current = 0) :
    (step c i a s).2.home2_value = 0 ∧ (step c i a s).2.home2_mortgage_balance = 0 ∧
    (step c i a s).1.home2_value = 0 ∧ (step c i a s).1.home2_mortgage_balance_current = 0 := by
  have hv1 : (stepPre c i a s).home2_value1 = 0 := by
    rw [stepPre_home2_value1, h1, zero_mul]
  have hm2 : (stepPre c i a s).m2.new_balance = 0 := by
    rw [stepPre_m2, if_neg]
    · exact h2
    · rw [h2]; simp
  rw [step_eq]
  simp only [arow_home2_value, arow_home2_mortgage, ast_home2_value, ast_home2_mortgage,
    stepSales_ss]
  cases hdec : decide (i = c.home2_sell_home_years) with
  | false =>
    simp only [secondSale_false, hv1, hm2]
    exact ⟨trivial, trivial, trivial, trivial⟩
  | true =>
    simp only [secondSale_true, hm2]
    norm_num

lemma step_mb2_nonneg (c : Config) (i a : ℕ) (s : St)
    (h : 0 ≤ s.home2_mortgage_balance_current) :
    0 ≤ (step c i a s).1.home2_mortgage_balance_current := by
  have hmb1 : 0 ≤ (stepPre c i a s).m2.new_balance := m2_balance_nonneg c i a s h
  rw [step_eq]
  simp only [ast_home2_mortgage, stepSales_ss]
  cases hdec : decide (i = c.home2_sell_home_years) with
  | false => simpa [secondSale_false] using hmb1
  | true =>
    simp only [secondSale_true]
    split_ifs
    · exact le_refl 0
    · exact hmb1

/-- Per-year invariant for claim C6: mortgage balances nonnegative, homes
zeroed from their sale years on. -/
lemma home_inv_all (c : Config) (hv : c.Valid) (j : ℕ) :
    0 ≤ (stateAfter c j (initSt c) 0).mortgage_balance_current ∧
    0 ≤ (stateAfter c j (initSt c) 0).home2_mortgage_balance_current ∧
    (c.sell_home_years < j → (stateAfter c j (initSt c) 0).home_value = 0 ∧
      (stateAfter c j (initSt c) 0).mortgage_balance_current = 0) ∧
    (c.home2_sell_home_years < j → (stateAfter c j (initSt c) 0).home2_value = 0 ∧
      (stateAfter c j (initSt c) 0).home2_mortgage_balance_current = 0) := by
  induction j with
  | zero =>
    refine ⟨hv.mortgage_balance_nonneg, hv.home2_mortgage_balance_nonneg, ?_, ?_⟩ <;> omega
  | succ j ih =>
    rw [stateAfter_succ0]
    obtain ⟨ih1, ih2, ih3, ih4⟩ := ih
    refine ⟨step_mb_nonneg c j _ _ ih1, step_mb2_nonneg c j _ _ ih2, ?_, ?_⟩
    · intro hlt
      rcases Nat.lt_or_ge c.sell_home_years (j + 1) with h | h
      · rcases Nat.lt_or_ge c.sell_home_years j with h2 | h2
        · have hz := ih3 h2
          exact ⟨(step_home_zero_preserve c j _ _ hz.1 hz.2).2.2.1,
            (step_home_zero_preserve c j _ _ hz.1 hz.2).2.2.2⟩
        · have hj : j = c.sell_home_years := by omega
          exact ⟨(step_home_sale_zero c j _ _ ih1 hj).2.2.1,
            (step_home_sale_zero c j _ _ ih1 hj).2.2.2⟩
      · omega
    · intro hlt
      rcases Nat.lt_or_ge c.home2_sell_home_years (j + 1) with h | h
      · rcases Nat.lt_or_ge c.home2_sell_home_years j with h2 | h2
        · have hz := ih4 h2
          exact ⟨(step_home2_zero_preserve c j _ _ hz.1 hz.2).2.2.1,
            (step_home2_zero_preserve c j _ _ hz.1 hz.2).2.2.2⟩
        · have hj : j = c.home2_sell_home_years := by omega
          exact ⟨(step_home2_sale_zero c j _ _ ih2 hj).2.2.1,
            (step_home2_sale_zero c j _ _ ih2 hj).2.2.2⟩
      · omega

/-! ### Claim C6 -/

/-- Claim C6: for a home with a scheduled sale at year offset s, its raw
value and its mortgage balance are zero in every projection row with offset
at least s (a sold home is never un-sold); the sale event fires exactly in
the year whose offset equals s, the recorded sale proceeds are zero in every
other year, and on the sale year the net proceeds are added to the brokerage
balance once, in full. This holds for the primary home and for the second
home. -/
theorem claim_C6_sale_irreversibility (c : Config) (hv : c.Valid) (j : ℕ)
    (hj : j < (run c).length) :
    (c.sell_home_years ≤ j → ((run c).getD j default).home_value = 0 ∧
      ((run c).getD j default).mortgage_balance = 0) ∧
    (((run c).getD j default).home_sale_this_year = true ↔ j = c.sell_home_years) ∧
    (j ≠ c.sell_home_years → ((run c).getD j default).home_sale_proceeds = 0) ∧
    (c.home2_sell_home_years ≤ j → ((run c).getD j default).home2_value = 0 ∧
      ((run c).getD j default).home2_mortgage_balance = 0) ∧
    (((run c).getD j default).home2_sale_this_year = true ↔ j = c.home2_sell_home_years) ∧
    (j ≠ c.home2_sell_home_years → ((run c).getD j default).home2_sale_proceeds = 0) ∧
    (∀ (br cb td prev hvv lq mb : ℚ) (mo : ℤ),
      (primarySale true br cb td prev hvv lq mb mo).brokerage = br + lq ∧
      (secondSale true br cb td prev hvv lq mb mo).brokerage = br + lq) := by
  obtain ⟨hmb, hmb2, hzero, hzero2⟩ := home_inv_all c hv j
  have hflag1 : ((run c).getD j default).home_sale_this_year =
      decide (j = c.sell_home_years) := by
    rw [run_getD c j hj, step_eq, arow_sale1, stepSales_flag1]
  have hflag2 : ((run c).getD j default).home2_sale_this_year =
      decide (j = c.home2_sell_home_years) := by
    rw [run_getD c j hj, step_eq, arow_sale2, stepSales_flag2]
  refine ⟨?_, ?_, ?_, ?_, ?_, ?_, ?_⟩
  · intro hle
    rw [run_getD c j hj]
    rcases Nat.lt_or_ge c.sell_home_years j with h | h
    · have hz := hzero h
      exact ⟨(step_home_zero_preserve c j _ _ hz.1 hz.2).1,
        (step_home_zero_preserve c j _ _ hz.1 hz.2).2.1⟩
    · have hjs : j = c.sell_home_years := by omega
      exact ⟨(step_home_sale_zero c j _ _ hmb hjs).1,
        (step_home_sale_zero c j _ _ hmb hjs).2.1⟩
  · rw [hflag1]; simp
  · intro hne
    rw [run_getD c j hj, step_eq, arow_proceeds1, stepSales_flag1, decide_eq_false hne]
    simp
  · intro hle
    rw [run_getD c j hj]
    rcases Nat.lt_or_ge c.home2_sell_home_years j with h | h
    · have hz := hzero2 h
      exact ⟨(step_home2_zero_preserve c j _ _ hz.1 hz.2).1,
        (step_home2_zero_preserve c j _ _ hz.1 hz.2).2.1⟩
    · have hjs : j = c.home2_sell_home_years := by omega
      exact ⟨(step_home2_sale_zero c j _ _ hmb2 hjs).1,
        (step_home2_sale_zero c j _ _ hmb2 hjs).2.1⟩
  · rw [hflag2]; simp
  · intro hne
    rw [run_getD c j hj, step_eq, arow_proceeds2, stepSales_flag2, decide_eq_false hne]
    simp
  · intro br cb td prev hvv lq mb mo
    constructor
    · rw [primarySale_true]
    · rw [secondSale_true]


/-- Witness for claim C6 on the insolvency scenario, whose second home is
scheduled for sale at offset 0. -/
theorem claim_C6_witness :
    exampleCfg2.Valid ∧ 0 < (run exampleCfg2).length ∧
    ((exampleCfg2.sell_home_years ≤ 0 → ((run exampleCfg2).getD 0 default).home_value = 0 ∧
      ((run exampleCfg2).getD 0 default).mortgage_balance = 0) ∧
    (((run exampleCfg2).getD 0 default).home_sale_this_year = true ↔
      0 = exampleCfg2.sell_home_years) ∧
    (0 ≠ exampleCfg2.sell_home_years → ((run exampleCfg2).getD 0 default).home_sale_proceeds = 0) ∧
    (exampleCfg2.home2_sell_home_years ≤ 0 →
      ((run exampleCfg2).getD 0 default).home2_value = 0 ∧
      ((run exampleCfg2).getD 0 default).home2_mortgage_balance = 0) ∧
    (((run exampleCfg2).getD 0 default).home2_sale_this_year = true ↔
      0 = exampleCfg2.home2_sell_home_years) ∧
    (0 ≠ exampleCfg2.home2_sell_home_years →
      ((run exampleCfg2).getD 0 default).home2_sale_proceeds = 0) ∧
    (∀ (br cb td prev hvv lq mb : ℚ) (mo : ℤ),
      (primarySale true br cb td prev hvv lq mb mo).brokerage = br + lq ∧
      (secondSale true br cb td prev hvv lq mb mo).brokerage = br + lq)) := by
  have hval : exampleCfg2.Valid := by constructor <;> norm_num [exampleCfg2]
  have hlen : 0 < (run exampleCfg2).length := by rw [run_ex2]; norm_num
  exact ⟨hval, hlen, claim_C6_sale_irreversibility exampleCfg2 hval 0 hlen⟩


/-! ### Non-negativity machinery -/

lemma amortMonths_balance_bounds (rate pay : ℚ) (hr : 0 ≤ rate) :
    ∀ (n : ℕ) (bal ti tp : ℚ), 0 ≤ bal → bal * rate ≤ pay →
      0 ≤ (amortMonths n pay rate bal ti tp).2.2 ∧
        (amortMonths n pay rate bal ti tp).2.2 ≤ bal := by
  intro n
  induction n with
  | zero => intro bal ti tp hb hp; exact ⟨hb, le_refl _⟩
  | succ n ih =>
    intro bal ti tp hb hp
    simp only [amortMonths]
    split_ifs with h1 h2
    · exact ⟨hb, le_refl _⟩
    · have hb0 : (0 : ℚ) < bal := lt_of_not_le h1
      have hpay0 : 0 ≤ pay := le_trans (mul_nonneg hb hr) hp
      have hrec := ih (bal - bal) (ti + bal * rate) (tp + bal) (by linarith)
        (by rw [sub_self, zero_mul]; exact hpay0)
      exact ⟨hrec.1, le_trans hrec.2 (by linarith)⟩
    · have hb0 : (0 : ℚ) < bal := lt_of_not_le h1
      have hp0 : 0 ≤ pay - bal * rate := by linarith
      have hple : pay - bal * rate ≤ bal := le_of_not_lt h2
      have hbal1 : 0 ≤ bal - (pay - bal * rate) := by linarith
      have hbal2 : bal - (pay - bal * rate) ≤ bal := by linarith
      have hrec := ih (bal - (pay - bal * rate)) (ti + bal * rate) (tp + (pay - bal * rate))
        hbal1 (le_trans (mul_le_mul_of_nonneg_right hbal2 hr) hp)
      exact ⟨hrec.1, le_trans hrec.2 hbal2⟩

lemma calculate_annual_balance_le (p mp mr : ℚ) (m : ℤ) (hr : 0 ≤ mr) (hb : 0 ≤ p)
    (hp : p * mr ≤ mp) : (calculate_annual_mortgage_amortization p mp mr m).2.2 ≤ p := by
  rw [calculate_annual_mortgage_amortization]
  split_ifs with h
  · exact hb
  · exact max_le hb (amortMonths_balance_bounds mr mp hr _ p 0 0 hb hp).2

lemma serviceMortgage_balance_le (bal : ℚ) (months : ℤ) (pay rate tax : ℚ)
    (hr : 0 ≤ rate) (hb : 0 ≤ bal) (hp : bal * rate ≤ pay) :
    (serviceMortgage bal months pay rate tax).new_balance ≤ bal := by
  simp only [serviceMortgage]
  split_ifs <;> simp [noServiceMortgage, hb, calculate_annual_balance_le bal pay rate months hr hb hp]

/-- The fixed amortization payment covers at least the interest on the
initial principal. -/
lemma calculate_monthly_payment_ge (p r : ℚ) (y : ℤ) (hp : 0 < p) (hy : 0 < y)
    (hr : 0 ≤ r) : p * (r / 12) ≤ calculate_monthly_payment p r y := by
  rw [calculate_monthly_payment, if_neg (by push_neg; exact ⟨hp, hy⟩)]
  by_cases hr0 : r / 12 = 0
  · rw [if_pos hr0, hr0, mul_zero]
    positivity
  · rw [if_neg hr0]
    have hr12 : 0 < r / 12 := lt_of_le_of_ne (by positivity) (Ne.symm hr0)
    have hn : y.toNat * 12 ≠ 0 := by
      have : 0 < y.toNat := by omega
      positivity
    have hpow : (1 : ℚ) < (1 + r / 12) ^ (y.toNat * 12) := one_lt_pow₀ (by linarith) hn
    rw [le_div_iff (by linarith)]
    nlinarith [mul_pos hp hr12]

lemma purchase_monthly_rate_nonneg (c : Config) (hv : c.Valid) :
    0 ≤ c.purchase_monthly_mortgage_rate := by
  rw [Config.purchase_monthly_mortgage_rate]
  split_ifs
  · have := hv.purchase_rate_nonneg; positivity
  · exact le_refl 0

lemma loan_amount_nonneg (c : Config) (hv : c.Valid) : 0 ≤ c.loan_amount := by
  rw [Config.loan_amount, Config.down_payment]
  nlinarith [hv.purchase_price_nonneg, hv.percent_down_nonneg, hv.percent_down_le_one]

lemma loan_amount_le_price (c : Config) (hv : c.Valid) : c.loan_amount ≤ c.purchase_price := by
  rw [Config.loan_amount, Config.down_payment]
  nlinarith [hv.purchase_price_nonneg, hv.percent_down_nonneg]

lemma purchase_payment_ge (c : Config) (hv : c.Valid) :
    c.loan_amount * c.purchase_monthly_mortgage_rate ≤ c.purchase_monthly_mortgage_payment := by
  rw [Config.purchase_monthly_mortgage_payment, Config.purchase_monthly_mortgage_rate]
  split_ifs with h
  · have h12 : c.purchase_rate / 12 = c.purchase_rate / 12 := rfl
    have := calculate_monthly_payment_ge c.loan_amount c.purchase_rate (c.purchase_term : ℤ)
      h.1 (by exact_mod_cast h.2) hv.purchase_rate_nonneg
    exact this
  · simp

lemma growBucket_bal_nonneg (b cb td rate : ℚ) (hb : 0 ≤ b) (hr : 0 ≤ rate) :
    0 ≤ (growBucket b cb td rate).bal := by
  simp only [growBucket]
  split_ifs <;> simp <;> nlinarith

lemma takeTaxedBucket_bal_nonneg (g d b cb td p : ℚ) (hb : 0 ≤ b) :
    0 ≤ (takeTaxedBucket g d b cb td p).bal := by
  simp only [takeTaxedBucket]
  split_ifs <;> simp [hb, le_max_left]

lemma takeIraBucket_bal_nonneg (t d b : ℚ) (hb : 0 ≤ b) :
    0 ≤ (takeIraBucket t d b).bal := by
  simp only [takeIraBucket]
  split_ifs <;> simp [hb, le_max_left]

lemma resolveCashFlow_balances_nonneg (c : Config) (i : ℕ)
    (cf mm mm_cb mm_td mm_prev br br_cb br_td br_prev ira hv h2v db : ℚ)
    (hmm : 0 ≤ mm) (hbr : 0 ≤ br) (hira : 0 ≤ ira) :
    0 ≤ (resolveCashFlow c i cf mm mm_cb mm_td mm_prev br br_cb br_td br_prev ira hv h2v
        db).money_market ∧
    0 ≤ (resolveCashFlow c i cf mm mm_cb mm_td mm_prev br br_cb br_td br_prev ira hv h2v
        db).brokerage ∧
    0 ≤ (resolveCashFlow c i cf mm mm_cb mm_td mm_prev br br_cb br_td br_prev ira hv h2v
        db).ira := by
  rcases le_or_lt 0 cf with hcf | hcf
  · rw [resolveCashFlow_nonneg _ _ _ _ _ _ _ _ _ _ _ _ _ _ _ hcf]
    exact ⟨by simpa using add_nonneg hmm hcf, hbr, hira⟩
  · rw [resolveCashFlow_neg _ _ _ _ _ _ _ _ _ _ _ _ _ _ _ hcf]
    rw [(cascade_fields _ _ _ _ _ _ _ _ _ _ _ _ _ _ _).1,
      (cascade_fields _ _ _ _ _ _ _ _ _ _ _ _ _ _ _).2.2.2.1,
      (cascade_fields _ _ _ _ _ _ _ _ _ _ _ _ _ _ _).2.2.2.2.2.2]
    exact ⟨takeTaxedBucket_bal_nonneg _ _ _ _ _ _ hmm,
      takeTaxedBucket_bal_nonneg _ _ _ _ _ _ hbr,
      takeIraBucket_bal_nonneg _ _ _ hira⟩

lemma liquidValue_nonneg (v pct d g mb : ℚ) (hv : 0 ≤ v) (hp0 : 0 ≤ pct) (hp1 : pct ≤ 1)
    (hd : 0 ≤ d) (hg0 : 0 ≤ g) (hg1 : g ≤ 1) : 0 ≤ liquidValue v pct d g mb := by
  simp only [liquidValue]
  have h1 : 0 ≤ v * (1 - pct) := mul_nonneg hv (by linarith)
  have h2 : max (v - v * pct - d) 0 ≤ v * (1 - pct) := max_le (by nlinarith) h1
  have h3 : max (v - v * pct - d) 0 * g ≤ v * (1 - pct) * 1 :=
    mul_le_mul h2 hg1 hg0 h1
  split_ifs
  · exact le_max_left 0 _
  · nlinarith [le_max_right (v - v * pct - d) 0]


lemma stepPre_purchase_value1 (c : Config) (i a : ℕ) (s : St) :
    (stepPre c i a s).purchase_home_value1 = s.purchase_home_value * (1 + c.purchase_growth) := rfl

lemma stepPre_m3 (c : Config) (i a : ℕ) (s : St) :
    (stepPre c i a s).m3 =
      if s.purchase_mortgage_balance_current > 0 then
        serviceMortgage s.purchase_mortgage_balance_current s.purchase_mortgage_remaining_months
          c.purchase_monthly_mortgage_payment c.purchase_monthly_mortgage_rate c.avg_tax_rate
      else noServiceMortgage s.purchase_mortgage_balance_current
        s.purchase_mortgage_remaining_months := rfl

lemma arow_lhv (c : Config) (a : ℕ) (p : PreOut) (sl : SalesOut) (r : ResolveOut) :
    (stepAssemble c a p sl r).2.liquid_home_value = sl.ps.liquid_value := rfl

lemma arow_h2lv (c : Config) (a : ℕ) (p : PreOut) (sl : SalesOut) (r : ResolveOut) :
    (stepAssemble c a p sl r).2.home2_liquid_value = sl.ss.liquid_value := rfl

lemma arow_phlv (c : Config) (a : ℕ) (p : PreOut) (sl : SalesOut) (r : ResolveOut) :
    (stepAssemble c a p sl r).2.purchase_home_liquid_value =
      p.purchase_home_value1 - p.m3.new_balance := rfl

lemma ast_purchase_value (c : Config) (a : ℕ) (p : PreOut) (sl : SalesOut) (r : ResolveOut) :
    (stepAssemble c a p sl r).1.purchase_home_value = p.purchase_home_value1 := rfl

lemma ast_purchase_mb (c : Config) (a : ℕ) (p : PreOut) (sl : SalesOut) (r : ResolveOut) :
    (stepAssemble c a p sl r).1.purchase_mortgage_balance_current = p.m3.new_balance := rfl

lemma m3_balance_nonneg (c : Config) (i a : ℕ) (s : St)
    (h : 0 ≤ s.purchase_mortgage_balance_current) : 0 ≤ (stepPre c i a s).m3.new_balance := by
  rw [stepPre_m3]
  split_ifs
  · exact serviceMortgage_balance_nonneg _ _ _ _ _ h
  · exact h

lemma m3_balance_le (c : Config) (hv : c.Valid) (i a : ℕ) (s : St)
    (h0 : 0 ≤ s.purchase_mortgage_balance_current)
    (hle : s.purchase_mortgage_balance_current ≤ c.loan_amount) :
    (stepPre c i a s).m3.new_balance ≤ s.purchase_mortgage_balance_current := by
  rw [stepPre_m3]
  split_ifs
  · refine serviceMortgage_balance_le _ _ _ _ _ (purchase_monthly_rate_nonneg c hv) h0 ?_
    calc s.purchase_mortgage_balance_current * c.purchase_monthly_mortgage_rate
        ≤ c.loan_amount * c.purchase_monthly_mortgage_rate :=
          mul_le_mul_of_nonneg_right hle (purchase_monthly_rate_nonneg c hv)
      _ ≤ c.purchase_monthly_mortgage_payment := purchase_payment_ge c hv
  · exact le_refl _

/-- One year of the projection preserves the non-negativity invariant of the
carried state and yields a row whose bucket balances and property liquid
values are all nonnegative. -/
lemma step_c2_inv (c : Config) (hv : c.Valid) (i a : ℕ) (s : St)
    (h : 0 ≤ s.money_market ∧ 0 ≤ s.brokerage ∧ 0 ≤ s.ira ∧ 0 ≤ s.home_value ∧
      0 ≤ s.home2_value ∧ 0 ≤ s.purchase_mortgage_balance_current ∧
      s.purchase_mortgage_balance_current ≤ c.loan_amount ∧
      c.purchase_price ≤ s.purchase_home_value) :
    (0 ≤ (step c i a s).1.money_market ∧ 0 ≤ (step c i a s).1.brokerage ∧
      0 ≤ (step c i a s).1.ira ∧ 0 ≤ (step c i a s).1.home_value ∧
      0 ≤ (step c i a s).1.home2_value ∧
      0 ≤ (step c i a s).1.purchase_mortgage_balance_current ∧
      (step c i a s).1.purchase_mortgage_balance_current ≤ c.loan_amount ∧
      c.purchase_price ≤ (step c i a s).1.purchase_home_value) ∧
    (0 ≤ (step c i a s).2.money_market ∧ 0 ≤ (step c i a s).2.brokerage ∧
      0 ≤ (step c i a s).2.ira ∧ 0 ≤ (step c i a s).2.liquid_home_value ∧
      0 ≤ (step c i a s).2.home2_liquid_value ∧
      0 ≤ (step c i a s).2.purchase_home_liquid_value) := by
  obtain ⟨hmm, hbr, hira, hh1, hh2, hpmb0, hpmbL, hpv⟩ := h
  have hgm : 0 ≤ (stepGrow c s).mm.bal := by
    rw [(stepGrow_fields c s).1]
    exact growBucket_bal_nonneg _ _ _ _ hmm hv.cash_growth_nonneg
  have hgb : 0 ≤ (stepGrow c s).br.bal := by
    rw [(stepGrow_fields c s).2.1]
    exact growBucket_bal_nonneg _ _ _ _ hbr hv.stock_growth_nonneg
  have hgi : 0 ≤ (stepGrow c s).ira1 := by
    rw [(stepGrow_fields c s).2.2]
    exact mul_nonneg hira (by linarith [hv.stock_growth_nonneg])
  have hhv1 : 0 ≤ (stepPre c i a s).home_value1 := by
    rw [stepPre_home_value1]
    exact mul_nonneg hh1 (by linarith [hv.home_growth_nonneg])
  have hh2v1 : 0 ≤ (stepPre c i a s).home2_value1 := by
    rw [stepPre_home2_value1]
    exact mul_nonneg hh2 (by linarith [hv.home2_growth_nonneg])
  have hprice : (0 : ℚ) ≤ c.purchase_price := hv.purchase_price_nonneg
  have hpv1 : c.purchase_price ≤ (stepPre c i a s).purchase_home_value1 := by
    rw [stepPre_purchase_value1]
    nlinarith [hv.purchase_growth_nonneg]
  have hm30 : 0 ≤ (stepPre c i a s).m3.new_balance := m3_balance_nonneg c i a s hpmb0
  have hm3le : (stepPre c i a s).m3.new_balance ≤ s.purchase_mortgage_balance_current :=
    m3_balance_le c hv i a s hpmb0 hpmbL
  have hlq1 : 0 ≤ liquidValue (stepPre c i a s).home_value1 c.sale_cost_pct c.tax_deductions
      c.cap_gains_rate (stepPre c i a s).m1.new_balance :=
    liquidValue_nonneg _ _ _ _ _ hhv1 hv.sale_cost_pct_nonneg hv.sale_cost_pct_le_one
      hv.tax_deductions_nonneg hv.cap_gains_rate_nonneg hv.cap_gains_rate_le_one
  have hlq2 : 0 ≤ liquidValue (stepPre c i a s).home2_value1 c.home2_sale_cost_pct
      c.home2_tax_deductions c.cap_gains_rate (stepPre c i a s).m2.new_balance :=
    liquidValue_nonneg _ _ _ _ _ hh2v1 hv.home2_sale_cost_pct_nonneg
      hv.home2_sale_cost_pct_le_one hv.home2_tax_deductions_nonneg hv.cap_gains_rate_nonneg
      hv.cap_gains_rate_le_one
  have hps_lq : 0 ≤ (stepSales c i (stepPre c i a s) (stepGrow c s)).ps.liquid_value := by
    rw [stepSales_ps]
    cases hdec : decide (i = c.sell_home_years) with
    | false => simpa [primarySale_false] using hlq1
    | true => simp [primarySale_true]
  have hps_hv : 0 ≤ (stepSales c i (stepPre c i a s) (stepGrow c s)).ps.home_value := by
    rw [stepSales_ps]
    cases hdec : decide (i = c.sell_home_years) with
    | false => simpa [primarySale_false] using hhv1
    | true => simp [primarySale_true]
  have hps_br : 0 ≤ (stepSales c i (stepPre c i a s) (stepGrow c s)).ps.brokerage := by
    rw [stepSales_ps]
    cases hdec : decide (i = c.sell_home_years) with
    | false => simpa [primarySale_false] using hgb
    | true => simpa [primarySale_true] using add_nonneg hgb hlq1
  have hss_lq : 0 ≤ (stepSales c i (stepPre c i a s) (stepGrow c s)).ss.liquid_value := by
    rw [stepSales_ss]
    cases hdec : decide (i = c.home2_sell_home_years) with
    | false => simpa [secondSale_false] using hlq2
    | true => simp [secondSale_true]
  have hss_hv : 0 ≤ (stepSales c i (stepPre c i a s) (stepGrow c s)).ss.home_value := by
    rw [stepSales_ss]
    cases hdec : decide (i = c.home2_sell_home_years) with
    | false => simpa [secondSale_false] using hh2v1
    | true => simp [secondSale_true]
  have hss_br : 0 ≤ (stepSales c i (stepPre c i a s) (stepGrow c s)).ss.brokerage := by
    rw [stepSales_ss]
    cases hdec : decide (i = c.home2_sell_home_years) with
    | false => simpa [secondSale_false] using hps_br
    | true => simpa [secondSale_true] using add_nonneg hps_br hlq2
  have hres := resolveCashFlow_balances_nonneg c i
    (stepResolve c i a (stepPre c i a s) (stepGrow c s)
      (stepSales c i (stepPre c i a s) (stepGrow c s))).cash_flow
    (stepGrow c s).mm.bal (stepGrow c s).mm.cost_basis (stepGrow c s).mm.tax_deferred
    (stepGrow c s).mm.prev_value
    (stepSales c i (stepPre c i a s) (stepGrow c s)).ss.brokerage
    (stepSales c i (stepPre c i a s) (stepGrow c s)).ss.brokerage_cost_basis
    (stepSales c i (stepPre c i a s) (stepGrow c s)).ss.brokerage_tax_deferred
    (stepSales c i (stepPre c i a s) (stepGrow c s)).ss.brokerage_prev_value
    (stepGrow c s).ira1
    (stepSales c i (stepPre c i a s) (stepGrow c s)).ps.home_value
    (stepSales c i (stepPre c i a s) (stepGrow c s)).ss.home_value
    (stepPre c i a s).debt_balance1 hgm hss_br hgi
  rw [step_eq]
  refine ⟨⟨?_, ?_, ?_, ?_, ?_, ?_, ?_, ?_⟩, ?_, ?_, ?_, ?_, ?_, ?_⟩
  · rw [ast_mm, stepResolve_res]; exact hres.1
  · rw [ast_br, stepResolve_res]; exact hres.2.1
  · rw [ast_ira, stepResolve_res]; exact hres.2.2
  · rw [ast_home_value]; exact hps_hv
  · rw [ast_home2_value]; exact hss_hv
  · rw [ast_purchase_mb]; exact hm30
  · rw [ast_purchase_mb]; exact le_trans hm3le hpmbL
  · rw [ast_purchase_value]; exact hpv1
  · rw [arow_mm, stepResolve_res]; exact hres.1
  · rw [arow_br, stepResolve_res]; exact hres.2.1
  · rw [arow_ira, stepResolve_res]; exact hres.2.2
  · rw [arow_lhv]; exact hps_lq
  · rw [arow_h2lv]; exact hss_lq
  · rw [arow_phlv]
    have hlp := loan_amount_le_price c hv
    linarith

lemma forall_mem_stepsFrom_inv {c : Config} {Inv : St → Prop} {P : Row → Prop}
    (h : ∀ (i age : ℕ) (s : St), Inv s → Inv (step c i age s).1 ∧ P (step c i age s).2) :
    ∀ (n i : ℕ) (s : St), Inv s → ∀ r ∈ stepsFrom c s i n, P r := by
  intro n
  induction n with
  | zero => intro i s _ r hr; simp [stepsFrom] at hr
  | succ n ih =>
    intro i s hs r hr
    rw [stepsFrom_succ] at hr
    rcases List.mem_cons.mp hr with h1 | h1
    · rw [h1]; exact (h i (c.start_age + i) s hs).2
    · exact ih (i + 1) _ (h i (c.start_age + i) s hs).1 r h1

/-- Claim C2: for every valid configuration and every row of the projection,
every bucket balance (money market, brokerage, IRA) and every property's
liquid (net-of-sale-cost-and-tax, after-mortgage) value is nonnegative. -/
theorem claim_C2_nonneg (c : Config) (hv : c.Valid) :
    ∀ r ∈ run c, 0 ≤ r.money_market ∧ 0 ≤ r.brokerage ∧ 0 ≤ r.ira ∧
      0 ≤ r.liquid_home_value ∧ 0 ≤ r.home2_liquid_value ∧
      0 ≤ r.purchase_home_liquid_value :=
  @forall_mem_stepsFrom_inv c
    (fun s => 0 ≤ s.money_market ∧ 0 ≤ s.brokerage ∧ 0 ≤ s.ira ∧ 0 ≤ s.home_value ∧
      0 ≤ s.home2_value ∧ 0 ≤ s.purchase_mortgage_balance_current ∧
      s.purchase_mortgage_balance_current ≤ c.loan_amount ∧
      c.purchase_price ≤ s.purchase_home_value)
    (fun r => 0 ≤ r.money_market ∧ 0 ≤ r.brokerage ∧ 0 ≤ r.ira ∧
      0 ≤ r.liquid_home_value ∧ 0 ≤ r.home2_liquid_value ∧
      0 ≤ r.purchase_home_liquid_value)
    (fun i age s hs => step_c2_inv c hv i age s hs)
    (numYears c) 0 (initSt c)
    ⟨hv.cash_start_nonneg, le_refl 0, hv.ira_start_nonneg, hv.home_value_nonneg,
      hv.home2_value_nonneg, loan_amount_nonneg c hv, le_refl _, le_refl _⟩

/-- Witness for claim C2: the worked-example configuration is valid and every
row of its projection satisfies the non-negativity bounds. -/
theorem claim_C2_witness :
    exampleCfg1.Valid ∧
      ∀ r ∈ run exampleCfg1, 0 ≤ r.money_market ∧ 0 ≤ r.brokerage ∧ 0 ≤ r.ira ∧
        0 ≤ r.liquid_home_value ∧ 0 ≤ r.home2_liquid_value ∧
        0 ≤ r.purchase_home_liquid_value := by
  have hval : exampleCfg1.Valid := by constructor <;> norm_num [exampleCfg1]
  exact ⟨hval, claim_C2_nonneg exampleCfg1 hval⟩

end RetireCalc
